import Mathlib

/-!
Verification of the Aurelia biomarker scoring engine
(`src/aurelia/scoring/{metabolic,inflammation,oxygen}_scores.py`).

The three pipelines are shallow-embedded over exact rationals (ℚ stands for
the Python floats; float rounding error is not modelled).  Strings are
modelled as `List Char`; Python `dict`s of biomarkers as association lists in
insertion order.  Python truthiness of a float (`if value:`) is `value ≠ 0`.
CPython's `float(str)` conversion is modelled for finite decimal/scientific
literals (the `inf`/`nan`/underscore literal forms, which no biomarker string
uses, are mapped to "unparseable").
-/

/-! ## String helpers (Python `str.lower`, `str.strip`, `str.replace`) -/

def lowerStr (s : List Char) : List Char := s.map Char.toLower

def spaceToUnderscore (s : List Char) : List Char :=
  s.map (fun c => if c = ' ' then '_' else c)

def trimChars (s : List Char) : List Char :=
  ((s.dropWhile Char.isWhitespace).reverse.dropWhile Char.isWhitespace).reverse

/-- Python `s.replace(p, r)`: replace every non-overlapping occurrence of `p`
left to right; the replacement text is not rescanned. -/
def replaceAll (p r : List Char) : List Char → List Char
  | [] => []
  | c :: cs =>
    if h : p ≠ [] ∧ List.isPrefixOf p (c :: cs) then
      r ++ replaceAll p r ((c :: cs).drop p.length)
    else
      c :: replaceAll p r cs
termination_by s => s.length
decreasing_by
  · simp only [List.length_drop, List.length_cons]
    have hp : p.length ≠ 0 := by
      simpa [List.length_eq_zero] using (by exact h.1 : p ≠ [])
    omega
  · simp

/-- Python `p in s` (substring containment). -/
def containsSub (p : List Char) : List Char → Bool
  | [] => List.isPrefixOf p []
  | c :: cs => List.isPrefixOf p (c :: cs) || containsSub p cs

/-! ## Digit strings and decimal values -/

def digitVal (c : Char) : ℕ := c.toNat - ('0').toNat

def digitsToNat (ds : List Char) : ℕ :=
  ds.foldl (fun a c => 10 * a + digitVal c) 0

/-- Value of a decimal literal with optional sign, integer digits `ip` and
fraction digits `fp`. -/
def decToRat (sign : Bool) (ip fp : List Char) : ℚ :=
  let m : ℚ := (digitsToNat ip : ℚ) + (digitsToNat fp : ℚ) / (10 : ℚ) ^ fp.length
  if sign then -m else m

/-! ## First-match extraction for the regex `[-+]?\d*\.?\d+`
(used by `InflammationScore.parse_biomarker` / `OxygenScore.parse_biomarker`,
which call `re.search` and `float` on the matched text). -/

/-- Optional leading sign: `[-+]?`. -/
def signSplit (s : List Char) : Bool × List Char :=
  match s with
  | [] => (false, [])
  | a :: t => if a = '-' then (true, t) else if a = '+' then (false, t) else (false, a :: t)

/-- Attempt of the pattern `[-+]?\d*\.?\d+` anchored at the head of `s`,
with Python's greedy backtracking semantics. -/
def matchNumberAt (s : List Char) : Option ℚ :=
  match (signSplit s).2.dropWhile Char.isDigit with
  | '.' :: t =>
    if t.takeWhile Char.isDigit ≠ [] then
      some (decToRat (signSplit s).1 ((signSplit s).2.takeWhile Char.isDigit)
        (t.takeWhile Char.isDigit))
    else if (signSplit s).2.takeWhile Char.isDigit ≠ [] then
      some (decToRat (signSplit s).1 ((signSplit s).2.takeWhile Char.isDigit) [])
    else none
  | _ =>
    if (signSplit s).2.takeWhile Char.isDigit ≠ [] then
      some (decToRat (signSplit s).1 ((signSplit s).2.takeWhile Char.isDigit) [])
    else none

/-- Leftmost match of `[-+]?\d*\.?\d+` in `s`, parsed as a number
(`re.search` followed by `float(match.group())`). -/
def findNumber : List Char → Option ℚ
  | [] => none
  | c :: cs =>
    match matchNumberAt (c :: cs) with
    | some q => some q
    | none => findNumber cs

/-! ## CPython `float(str)` on finite literals
(used by `MetabolicScore.parse_biomarker` after unit-suffix stripping).
Grammar: optional surrounding whitespace, optional sign, a mantissa that
contains at least one digit (`d+[.d*]` or `.d+`), optional exponent. -/

/-- Exponent part `[eE][-+]?digits`, applied to the mantissa; `none` when the
remainder is not a well-formed exponent. -/
def applyExponent (mant : ℚ) : List Char → Option ℚ
  | [] => some mant
  | e :: t =>
    if e = 'e' ∨ e = 'E' then
      if (signSplit t).2.takeWhile Char.isDigit ≠ [] ∧
         (signSplit t).2.dropWhile Char.isDigit = [] then
        some (mant * (10 : ℚ) ^
          (if (signSplit t).1 then -(digitsToNat ((signSplit t).2.takeWhile Char.isDigit) : ℤ)
           else (digitsToNat ((signSplit t).2.takeWhile Char.isDigit) : ℤ)))
      else none
    else none

def parsePyFloat (s0 : List Char) : Option ℚ :=
  match ((signSplit (trimChars s0)).2.dropWhile Char.isDigit) with
  | '.' :: t =>
    if (signSplit (trimChars s0)).2.takeWhile Char.isDigit = [] ∧
       t.takeWhile Char.isDigit = [] then none
    else
      applyExponent
        (decToRat (signSplit (trimChars s0)).1
          ((signSplit (trimChars s0)).2.takeWhile Char.isDigit) (t.takeWhile Char.isDigit))
        (t.dropWhile Char.isDigit)
  | r2 =>
    if (signSplit (trimChars s0)).2.takeWhile Char.isDigit = [] then none
    else
      applyExponent
        (decToRat (signSplit (trimChars s0)).1
          ((signSplit (trimChars s0)).2.takeWhile Char.isDigit) []) r2

/-! ## Rounding: Python `round(x, 1)` idealised over ℚ
(round to the nearest tenth, ties to even, per CPython's documented
round-half-to-even behaviour). -/

def roundTE (x : ℚ) : ℤ :=
  if Int.fract x = 1 / 2 then (if Even ⌊x⌋ then ⌊x⌋ else ⌊x⌋ + 1) else round x

def round1 (x : ℚ) : ℚ := (roundTE (10 * x) : ℚ) / 10

/-- Clamp used by all three pipelines: `max(0, min(100, v))`. -/
def clamp100 (x : ℚ) : ℚ := max 0 (min 100 x)

/-! ## Raw biomarker values -/

/-- A raw panel entry: Python `None` (or an absent key looked up with a `''`
default), a number, or a free-text string. -/
inductive RawValue
  | vNone : RawValue
  | vNum : ℚ → RawValue
  | vStr : String → RawValue
deriving DecidableEq

/-- Python truthiness of an `Optional[float]`. -/
def otruthy (o : Option ℚ) : Bool :=
  match o with
  | some v => decide (v ≠ 0)
  | none => false

/-! # Metabolic pipeline (`metabolic_scores.py`) -/

/-- Suffix list of `MetabolicScore.parse_biomarker`, in source order. -/
def metabSuffixes : List (List Char) :=
  [(" mg/dL").data, (" mg/dl").data, ("mg/dL").data, ("mg/dl").data,
   (" g/L").data, (" g/l").data, ("g/L").data, ("g/l").data,
   (" mmol/L").data, (" mmol/l").data, ("mmol/L").data, ("mmol/l").data,
   (" µIU/mL").data, (" uIU/mL").data, ("%").data]

/-- The suffix-stripping loop: `value_str = value_str.replace(suffix, '').strip()`. -/
def stripUnitSuffixes (s : List Char) : List Char :=
  metabSuffixes.foldl (fun t suf => trimChars (replaceAll suf [] t)) s

/-- MetabolicScore.parse_biomarker.  `if not value: return None` makes the
numbers `0`/`0.0` (and `None` / the empty string) parse to `None`; any other
number passes through (`str` round-trips it); a string is suffix-stripped and
handed to `float`. -/
def metab_parse_biomarker : RawValue → Option ℚ
  | .vNone => none
  | .vNum q => if q = 0 then none else some q
  | .vStr s => if s.data = [] then none else parsePyFloat (stripUnitSuffixes (trimChars s.data))

/-- The seven panel keys `compute_metabolic_score` reads (exact-key `dict.get`
lookups — the metabolic pipeline does no alias matching, so no other key of
the panel is ever read). -/
structure MetabolicPanel where
  fasting_glucose : RawValue
  fasting_insulin : RawValue
  triglycerides : RawValue
  HDL_cholesterol : RawValue
  ApoB : RawValue
  ApoA1 : RawValue
  HbA1c : RawValue
deriving DecidableEq

/-- Output of `MetabolicScore.convert_units`. -/
structure MetabValues where
  glucose_mmol : Option ℚ
  insulin_u : Option ℚ
  tg_mgdl : Option ℚ
  hdl_mgdl : Option ℚ
  apob_mgdl : Option ℚ
  apoa1_mgdl : Option ℚ
  hba1c : Option ℚ
deriving DecidableEq

/-- Glucose branch: `if glucose_val and glucose_val > 20: ... / 18.0`. -/
def convertGlucose (o : Option ℚ) : Option ℚ :=
  match o with
  | some v => if v ≠ 0 ∧ v > 20 then some (v / 18) else if v ≠ 0 then some v else none
  | none => none

/-- Triglycerides branch: `if tg_val and tg_val < 10: ... * 100`. -/
def convertTg (o : Option ℚ) : Option ℚ :=
  match o with
  | some v => if v ≠ 0 ∧ v < 10 then some (v * 100) else if v ≠ 0 then some v else none
  | none => none

/-- HDL / ApoB / ApoA1 branch: `if val and val < 5: ... * 100`. -/
def convertLipid (o : Option ℚ) : Option ℚ :=
  match o with
  | some v => if v ≠ 0 ∧ v < 5 then some (v * 100) else if v ≠ 0 then some v else none
  | none => none

def metab_convert_units (p : MetabolicPanel) : MetabValues :=
  ⟨convertGlucose (metab_parse_biomarker p.fasting_glucose),
   metab_parse_biomarker p.fasting_insulin,
   convertTg (metab_parse_biomarker p.triglycerides),
   convertLipid (metab_parse_biomarker p.HDL_cholesterol),
   convertLipid (metab_parse_biomarker p.ApoB),
   convertLipid (metab_parse_biomarker p.ApoA1),
   metab_parse_biomarker p.HbA1c⟩

/-- The four metabolic score components (`homa`, `tg_hdl`, `apob_a1`,
`hba1c`), used both for the derived-marker map and for the z-score map; a
`none` field models the key being absent / `None` in the Python dict. -/
structure MetabMarkers where
  homa : Option ℚ
  tg_hdl : Option ℚ
  apob_a1 : Option ℚ
  hba1c : Option ℚ
deriving DecidableEq

/-- MetabolicScore.calculate_derived_markers (truthiness-guarded products and
ratios; the returned dict has no `hba1c` key). -/
def metab_calculate_derived_markers (v : MetabValues) : MetabMarkers :=
  let homa : Option ℚ :=
    match v.glucose_mmol, v.insulin_u with
    | some g, some i => if g ≠ 0 ∧ i ≠ 0 then some ((g * i) / 22.5) else none
    | _, _ => none
  let tg_hdl : Option ℚ :=
    match v.tg_mgdl, v.hdl_mgdl with
    | some t, some h => if t ≠ 0 ∧ h ≠ 0 then some (t / h) else none
    | _, _ => none
  let apob_a1 : Option ℚ :=
    match v.apob_mgdl, v.apoa1_mgdl with
    | some b, some a => if b ≠ 0 ∧ a ≠ 0 then some (b / a) else none
    | _, _ => none
  ⟨homa, tg_hdl, apob_a1, none⟩

/-- One-sided z-score of the metabolic and inflammation pipelines:
`max(0, (value - mean) / sd)`. -/
def zPos (mean sd v : ℚ) : ℚ := max 0 ((v - mean) / sd)

/-- MetabolicScore.calculate_z_scores with `POPULATION_STATS`. -/
def metab_calculate_z_scores (d : MetabMarkers) : MetabMarkers :=
  ⟨d.homa.map (zPos 1.46 0.8),
   d.tg_hdl.map (zPos 2.0 1.0),
   d.apob_a1.map (zPos 0.9 0.3),
   d.hba1c.map (zPos 5.3 0.4)⟩

def optTerm (w : ℚ) (z : Option ℚ) : ℚ :=
  match z with
  | some v => w * v
  | none => 0

def optWeight (w : ℚ) (z : Option ℚ) : ℚ :=
  match z with
  | some _ => w
  | none => 0

def optCount (z : Option ℚ) : ℕ :=
  match z with
  | some _ => 1
  | none => 0

/-- Weighted penalty sum of `MetabolicScore.calculate_score` (weights 0.4,
0.3, 0.2, 0.1). -/
def metab_penalty_raw (z : MetabMarkers) : ℚ :=
  optTerm 0.4 z.homa + optTerm 0.3 z.tg_hdl + optTerm 0.2 z.apob_a1 + optTerm 0.1 z.hba1c

def metab_total_weight (z : MetabMarkers) : ℚ :=
  optWeight 0.4 z.homa + optWeight 0.3 z.tg_hdl + optWeight 0.2 z.apob_a1 + optWeight 0.1 z.hba1c

def metab_markers_used (z : MetabMarkers) : ℕ :=
  optCount z.homa + optCount z.tg_hdl + optCount z.apob_a1 + optCount z.hba1c

/-- Penalty after the metabolic pipeline's renormalisation step
(`if total_weight > 0 and total_weight < 1.0: penalty /= total_weight`). -/
def metab_penalty (z : MetabMarkers) : ℚ :=
  if 0 < metab_total_weight z ∧ metab_total_weight z < 1 then
    metab_penalty_raw z / metab_total_weight z
  else metab_penalty_raw z

/-- MetabolicScore.calculate_score (`SCALE = 15`). -/
def metab_calculate_score (z : MetabMarkers) : Option ℚ × ℕ :=
  if metab_markers_used z = 0 then (none, 0)
  else (some (round1 (clamp100 (100 - 15 * metab_penalty z))), metab_markers_used z)

inductive Level
  | optimal : Level
  | good : Level
  | needsImprovement : Level
deriving DecidableEq

/-- MetabolicScore.get_interpretation band logic (the per-band description and
summary strings are fixed text, omitted here). -/
def metab_get_interpretation (score : ℚ) : Level :=
  if score ≥ 85 then .optimal else if score ≥ 65 then .good else .needsImprovement

/-- ScoreResult shape common to the pipelines (fixed interpretation strings
omitted; `components` is the map returned in the result). -/
structure MetabResult where
  score : ℚ
  markersUsed : ℕ
  level : Level
  components : MetabMarkers
deriving DecidableEq

/-- Derived map after the facade's `if values.get('hba1c'): derived['hba1c'] = ...`. -/
def metab_derived_full (v : MetabValues) : MetabMarkers :=
  ⟨(metab_calculate_derived_markers v).homa, (metab_calculate_derived_markers v).tg_hdl,
   (metab_calculate_derived_markers v).apob_a1, if otruthy v.hba1c then v.hba1c else none⟩

/-- Tail of `MetabolicScore.compute_metabolic_score` after unit conversion. -/
def metab_score_from_values (v : MetabValues) : Option MetabResult :=
  match metab_calculate_score (metab_calculate_z_scores (metab_derived_full v)) with
  | (none, _) => none
  | (some s, used) => some ⟨s, used, metab_get_interpretation s, metab_derived_full v⟩

/-- MetabolicScore.compute_metabolic_score. -/
def compute_metabolic_score (p : MetabolicPanel) : Option MetabResult :=
  metab_score_from_values (metab_convert_units p)

/-- Z-score map the facade feeds to the combiner, as a function of the panel. -/
def metab_z (p : MetabolicPanel) : MetabMarkers :=
  metab_calculate_z_scores (metab_derived_full (metab_convert_units p))

/-! # Inflammation pipeline (`inflammation_scores.py`) -/

/-- InflammationScore.parse_biomarker / OxygenScore.parse_biomarker: numbers
pass through; strings are searched for the first `[-+]?\d*\.?\d+` substring. -/
def re_parse_biomarker : RawValue → Option ℚ
  | .vNone => none
  | .vNum q => some q
  | .vStr s => findNumber s.data

/-- A biomarker panel as handed to the inflammation / oxygen facades: dict
entries in insertion order (dict keys are unique; extraction only iterates, so
the association-list view is faithful). -/
def Panel : Type := List (String × RawValue)

/-- Key normalisation in the extraction loops:
`biomarker_key.lower().replace(' ', '_')`. -/
def normKey (s : String) : List Char := spaceToUnderscore (lowerStr s.data)

/-- Unit-class of the inflammation extractor's `re.search(r'[a-zA-Z/]+', ...)`. -/
def isUnitCharI (c : Char) : Bool := c.isAlpha || c = '/'

/-- Unit-class of the oxygen extractor's `re.search(r'[a-zA-Z/^%]+', ...)`.
Note `µ` is outside the class, so a detected unit token never contains `µ`. -/
def isUnitCharO (c : Char) : Bool := c.isAlpha || c = '/' || c = '^' || c = '%'

/-- First maximal run of characters satisfying `p` (first match of `[p]+`). -/
def firstRun (p : Char → Bool) : List Char → List Char
  | [] => []
  | c :: cs => if p c then c :: cs.takeWhile p else firstRun p cs

/-- Unit detection: the extractors look for a unit token only when the raw
value is a string (`isinstance(biomarker_value, str)`), else `unit = ''`. -/
def unitToken (pUnit : Char → Bool) (v : RawValue) : List Char :=
  match v with
  | .vStr s => firstRun pUnit s.data
  | _ => []

/-- Innermost extraction loop: first panel entry whose normalised key equals
`alias` and whose value parses (a matching entry with an unparseable value is
skipped and the scan continues).  Returns the parsed value and unit token. -/
def findEntryParsed (pUnit : Char → Bool) (al : List Char) :
    List (String × RawValue) → Option (ℚ × List Char)
  | [] => none
  | (k, v) :: rest =>
    if normKey k = al then
      (match re_parse_biomarker v with
       | some q => some (q, unitToken pUnit v)
       | none => findEntryParsed pUnit al rest)
    else findEntryParsed pUnit al rest

/-- Middle extraction loop: try the aliases in list order, stopping at the
first one that resolves; apply the pipeline's unit conversion to the hit. -/
def resolveMarker (pUnit : Char → Bool) (conv : ℚ → List Char → ℚ)
    (aliases : List (List Char)) (panel : List (String × RawValue)) : Option ℚ :=
  match aliases with
  | [] => none
  | a :: rest =>
    match findEntryParsed pUnit a panel with
    | some (q, u) => some (conv q u)
    | none => resolveMarker pUnit conv rest panel

/-- The four canonical inflammation markers. -/
structure IMarkers where
  hscrp : Option ℚ
  esr : Option ℚ
  ferritin : Option ℚ
  wbc : Option ℚ
deriving DecidableEq

/-- InflammationScore.convert_units, specialised at the four canonical keys it
is called with (`hscrp` hits the CRP branch; `ferritin`, `esr` and `wbc`
return the value unchanged). -/
def infl_convert_units_hscrp (value : ℚ) (unit : List Char) : ℚ :=
  if containsSub (("mg/dl").data) (lowerStr unit) then value * 10 else value

def infl_aliases_hscrp : List (List Char) :=
  [("hscrp").data, ("hs_crp").data, ("crp").data, ("c_reactive_protein").data, ("hsCRP").data]

def infl_aliases_esr : List (List Char) :=
  [("esr").data, ("sed_rate").data, ("sedimentation_rate").data]

def infl_aliases_ferritin : List (List Char) :=
  [("ferritin").data, ("serum_ferritin").data]

def infl_aliases_wbc : List (List Char) :=
  [("wbc").data, ("white_blood_cells").data, ("leucocytes").data, ("leukocytes").data]

/-- InflammationScore.extract_inflammation_biomarkers. -/
def extract_inflammation_biomarkers (panel : List (String × RawValue)) : IMarkers :=
  ⟨resolveMarker isUnitCharI infl_convert_units_hscrp infl_aliases_hscrp panel,
   resolveMarker isUnitCharI (fun v _ => v) infl_aliases_esr panel,
   resolveMarker isUnitCharI (fun v _ => v) infl_aliases_ferritin panel,
   resolveMarker isUnitCharI (fun v _ => v) infl_aliases_wbc panel⟩

/-- InflammationScore.calculate_z_scores with the premenopausal /
postmenopausal reference constants chosen by `is_menstruating`. -/
def infl_calculate_z_scores (m : IMarkers) (isMenstruating : Bool) : IMarkers :=
  if isMenstruating then
    ⟨m.hscrp.map (zPos 0.8 0.8), m.esr.map (zPos 12 8),
     m.ferritin.map (zPos 35 20), m.wbc.map (zPos 6.5 2.0)⟩
  else
    ⟨m.hscrp.map (zPos 1.5 1.0), m.esr.map (zPos 20 10),
     m.ferritin.map (zPos 100 50), m.wbc.map (zPos 6.5 2.0)⟩

/-- Weighted penalty sum of `InflammationScore.calculate_score`
(weights 0.40, 0.25, 0.20, 0.15; no renormalisation by the used weight). -/
def infl_penalty (z : IMarkers) : ℚ :=
  optTerm 0.40 z.hscrp + optTerm 0.25 z.esr + optTerm 0.20 z.ferritin + optTerm 0.15 z.wbc

def infl_markers_used (z : IMarkers) : ℕ :=
  optCount z.hscrp + optCount z.esr + optCount z.ferritin + optCount z.wbc

/-- InflammationScore.calculate_score (`SEVERITY_SCALE = 18`); returns
`(0.0, 0)` — not null — when no marker contributed. -/
def infl_calculate_score (z : IMarkers) : ℚ × ℕ :=
  if infl_markers_used z = 0 then (0, 0)
  else (round1 (clamp100 (100 - 18 * infl_penalty z)), infl_markers_used z)

/-- InflammationScore.get_interpretation band logic (fixed strings omitted). -/
def infl_get_interpretation (score : ℚ) : Level :=
  if score ≥ 80 then .optimal else if score ≥ 60 then .good else .needsImprovement

structure InflResult where
  score : ℚ
  markersUsed : ℕ
  level : Level
  isMenstruating : Bool
  components : IMarkers
deriving DecidableEq

/-- Number of markers resolved by extraction (`len(inflammation_markers)`). -/
def imarkers_count (m : IMarkers) : ℕ :=
  optCount m.hscrp + optCount m.esr + optCount m.ferritin + optCount m.wbc

/-- InflammationScore.compute_inflammation_score. -/
def compute_inflammation_score (panel : List (String × RawValue))
    (isMenstruating : Bool) : Option InflResult :=
  if imarkers_count (extract_inflammation_biomarkers panel) < 2 then none
  else
    if (infl_calculate_score (infl_calculate_z_scores
        (extract_inflammation_biomarkers panel) isMenstruating)).2 < 2 then none
    else some ⟨(infl_calculate_score (infl_calculate_z_scores
        (extract_inflammation_biomarkers panel) isMenstruating)).1,
      (infl_calculate_score (infl_calculate_z_scores
        (extract_inflammation_biomarkers panel) isMenstruating)).2,
      infl_get_interpretation (infl_calculate_score (infl_calculate_z_scores
        (extract_inflammation_biomarkers panel) isMenstruating)).1,
      isMenstruating, extract_inflammation_biomarkers panel⟩

/-! # Oxygen pipeline (`oxygen_scores.py`) -/

/-- The four canonical oxygen markers. -/
structure OMarkers where
  hemoglobin : Option ℚ
  hematocrit : Option ℚ
  rbc : Option ℚ
  iron : Option ℚ
deriving DecidableEq

/-- OxygenScore.convert_units, hemoglobin branch. -/
def oxy_convert_units_hemoglobin (value : ℚ) (unit : List Char) : ℚ :=
  if containsSub (("g/l").data) (lowerStr unit) ∧
     ¬ containsSub (("g/dl").data) (lowerStr unit) then value / 10
  else if containsSub (("mmol/l").data) (lowerStr unit) then value * 1.611
  else value

/-- OxygenScore.convert_units, hematocrit branch (fraction heuristic). -/
def oxy_convert_units_hematocrit (value : ℚ) (_unit : List Char) : ℚ :=
  if 0 ≤ value ∧ value ≤ 1 then value * 100 else value

/-- OxygenScore.convert_units, RBC branch. -/
def oxy_convert_units_rbc (value : ℚ) (unit : List Char) : ℚ :=
  if containsSub (("x10^6").data) (lowerStr unit) ∨ containsSub (("10^6").data) (lowerStr unit) ∨
     containsSub (("million").data) (lowerStr unit) then value / 1000
  else value

/-- OxygenScore.convert_units, iron branch (the `µ`-spelled unit tokens can
never occur, since the unit regex class excludes `µ`). -/
def oxy_convert_units_iron (value : ℚ) (unit : List Char) : ℚ :=
  if containsSub (("µmol/l").data) (lowerStr unit) ∨
     containsSub (("umol/l").data) (lowerStr unit) then value * 5.587
  else if containsSub (("µg/l").data) (lowerStr unit) ∨
     containsSub (("ug/l").data) (lowerStr unit) then value / 10
  else value

def oxy_aliases_hemoglobin : List (List Char) :=
  [("hemoglobin").data, ("hb").data, ("hgb").data, ("haemoglobin").data]

def oxy_aliases_hematocrit : List (List Char) :=
  [("hematocrit").data, ("hct").data, ("haematocrit").data]

def oxy_aliases_rbc : List (List Char) :=
  [("rbc").data, ("red_blood_cells").data, ("red_blood_cell_count").data, ("erythrocytes").data]

def oxy_aliases_iron : List (List Char) :=
  [("iron").data, ("serum_iron").data, ("fe").data, ("serum_fe").data]

/-- OxygenScore.extract_oxygen_biomarkers. -/
def extract_oxygen_biomarkers (panel : List (String × RawValue)) : OMarkers :=
  ⟨resolveMarker isUnitCharO oxy_convert_units_hemoglobin oxy_aliases_hemoglobin panel,
   resolveMarker isUnitCharO oxy_convert_units_hematocrit oxy_aliases_hematocrit panel,
   resolveMarker isUnitCharO oxy_convert_units_rbc oxy_aliases_rbc panel,
   resolveMarker isUnitCharO oxy_convert_units_iron oxy_aliases_iron panel⟩

/-- One-sided z-score of the oxygen pipeline: `abs(min(0, (value - mean) / sd))`
— only values below the mean are penalised. -/
def zNeg (mean sd v : ℚ) : ℚ := |min 0 ((v - mean) / sd)|

/-- OxygenScore.calculate_z_scores with `MEANS` / `SDS`. -/
def oxy_calculate_z_scores (m : OMarkers) : OMarkers :=
  ⟨m.hemoglobin.map (zNeg 13.5 1.2),
   m.hematocrit.map (zNeg 41 3.5),
   m.rbc.map (zNeg 4.5 0.35),
   m.iron.map (zNeg 90 25)⟩

/-- Weighted penalty sum of `OxygenScore.calculate_score`
(weights 0.40, 0.25, 0.20, 0.15; no renormalisation by the used weight). -/
def oxy_penalty (z : OMarkers) : ℚ :=
  optTerm 0.40 z.hemoglobin + optTerm 0.25 z.hematocrit + optTerm 0.20 z.rbc + optTerm 0.15 z.iron

def oxy_markers_used (z : OMarkers) : ℕ :=
  optCount z.hemoglobin + optCount z.hematocrit + optCount z.rbc + optCount z.iron

/-- OxygenScore.calculate_score (`SEVERITY_SCALE = 22`). -/
def oxy_calculate_score (z : OMarkers) : ℚ × ℕ :=
  if oxy_markers_used z = 0 then (0, 0)
  else (round1 (clamp100 (100 - 22 * oxy_penalty z)), oxy_markers_used z)

/-- OxygenScore.get_interpretation band logic (fixed strings omitted). -/
def oxy_get_interpretation (score : ℚ) : Level :=
  if score ≥ 80 then .optimal else if score ≥ 60 then .good else .needsImprovement

structure OxyResult where
  score : ℚ
  markersUsed : ℕ
  level : Level
  components : OMarkers
deriving DecidableEq

/-- Number of markers resolved by extraction (`len(oxygen_markers)`). -/
def omarkers_count (m : OMarkers) : ℕ :=
  optCount m.hemoglobin + optCount m.hematocrit + optCount m.rbc + optCount m.iron

/-- OxygenScore.compute_oxygen_score. -/
def compute_oxygen_score (panel : List (String × RawValue)) : Option OxyResult :=
  if omarkers_count (extract_oxygen_biomarkers panel) < 2 then none
  else
    if (oxy_calculate_score (oxy_calculate_z_scores
        (extract_oxygen_biomarkers panel))).2 < 2 then none
    else some ⟨(oxy_calculate_score (oxy_calculate_z_scores
        (extract_oxygen_biomarkers panel))).1,
      (oxy_calculate_score (oxy_calculate_z_scores (extract_oxygen_biomarkers panel))).2,
      oxy_get_interpretation (oxy_calculate_score (oxy_calculate_z_scores
        (extract_oxygen_biomarkers panel))).1,
      extract_oxygen_biomarkers panel⟩

/-! # Exception-aware variants

Every Python float division (`/`) raises `ZeroDivisionError` on a zero
divisor.  The `...E` functions below re-run each pipeline in `Except`,
turning every source-level division into a checked division, so that
"the pipeline never raises" can be stated as `...E = Except.ok ∘ ...`. -/

def ediv (a b : ℚ) : Except String ℚ :=
  if b = 0 then .error "ZeroDivisionError" else .ok (a / b)

def omapE (f : ℚ → Except String ℚ) : Option ℚ → Except String (Option ℚ)
  | none => .ok none
  | some v => (f v).map some

def zPosE (mean sd v : ℚ) : Except String ℚ :=
  (ediv (v - mean) sd).map (fun z => max 0 z)

def zNegE (mean sd v : ℚ) : Except String ℚ :=
  (ediv (v - mean) sd).map (fun z => |min 0 z|)

def convertGlucoseE (o : Option ℚ) : Except String (Option ℚ) :=
  match o with
  | some v =>
    if v ≠ 0 ∧ v > 20 then (ediv v 18).map some
    else if v ≠ 0 then .ok (some v) else .ok none
  | none => .ok none

def metab_convert_unitsE (p : MetabolicPanel) : Except String MetabValues := do
  let g ← convertGlucoseE (metab_parse_biomarker p.fasting_glucose)
  pure ⟨g,
    metab_parse_biomarker p.fasting_insulin,
    convertTg (metab_parse_biomarker p.triglycerides),
    convertLipid (metab_parse_biomarker p.HDL_cholesterol),
    convertLipid (metab_parse_biomarker p.ApoB),
    convertLipid (metab_parse_biomarker p.ApoA1),
    metab_parse_biomarker p.HbA1c⟩

def metab_calculate_derived_markersE (v : MetabValues) : Except String MetabMarkers := do
  let homa ← match v.glucose_mmol, v.insulin_u with
    | some g, some i =>
      if g ≠ 0 ∧ i ≠ 0 then (ediv (g * i) 22.5).map some else pure none
    | _, _ => pure (none : Option ℚ)
  let tg_hdl ← match v.tg_mgdl, v.hdl_mgdl with
    | some t, some h => if t ≠ 0 ∧ h ≠ 0 then (ediv t h).map some else pure none
    | _, _ => pure (none : Option ℚ)
  let apob_a1 ← match v.apob_mgdl, v.apoa1_mgdl with
    | some b, some a => if b ≠ 0 ∧ a ≠ 0 then (ediv b a).map some else pure none
    | _, _ => pure (none : Option ℚ)
  pure ⟨homa, tg_hdl, apob_a1, none⟩

def metab_calculate_z_scoresE (d : MetabMarkers) : Except String MetabMarkers := do
  let h ← omapE (zPosE 1.46 0.8) d.homa
  let t ← omapE (zPosE 2.0 1.0) d.tg_hdl
  let a ← omapE (zPosE 0.9 0.3) d.apob_a1
  let b ← omapE (zPosE 5.3 0.4) d.hba1c
  pure ⟨h, t, a, b⟩

def metab_calculate_scoreE (z : MetabMarkers) : Except String (Option ℚ × ℕ) := do
  if metab_markers_used z = 0 then pure ((none : Option ℚ), 0)
  else
    let praw := metab_penalty_raw z
    let w := metab_total_weight z
    let pen ← if 0 < w ∧ w < 1 then ediv praw w else pure praw
    pure (some (round1 (clamp100 (100 - 15 * pen))), metab_markers_used z)

def compute_metabolic_scoreE (p : MetabolicPanel) : Except String (Option MetabResult) := do
  let values ← metab_convert_unitsE p
  let d ← metab_calculate_derived_markersE values
  let derived : MetabMarkers :=
    ⟨d.homa, d.tg_hdl, d.apob_a1, if otruthy values.hba1c then values.hba1c else none⟩
  let z ← metab_calculate_z_scoresE derived
  let sr ← metab_calculate_scoreE z
  match sr with
  | (none, _) => pure none
  | (some s, used) => pure (some ⟨s, used, metab_get_interpretation s, derived⟩)

def infl_calculate_z_scoresE (m : IMarkers) (isMenstruating : Bool) :
    Except String IMarkers := do
  if isMenstruating then
    let h ← omapE (zPosE 0.8 0.8) m.hscrp
    let e ← omapE (zPosE 12 8) m.esr
    let f ← omapE (zPosE 35 20) m.ferritin
    let w ← omapE (zPosE 6.5 2.0) m.wbc
    pure ⟨h, e, f, w⟩
  else
    let h ← omapE (zPosE 1.5 1.0) m.hscrp
    let e ← omapE (zPosE 20 10) m.esr
    let f ← omapE (zPosE 100 50) m.ferritin
    let w ← omapE (zPosE 6.5 2.0) m.wbc
    pure ⟨h, e, f, w⟩

def compute_inflammation_scoreE (panel : List (String × RawValue))
    (isMenstruating : Bool) : Except String (Option InflResult) := do
  let m := extract_inflammation_biomarkers panel
  if imarkers_count m < 2 then pure none
  else
    let z ← infl_calculate_z_scoresE m isMenstruating
    let sr := infl_calculate_score z
    if sr.2 < 2 then pure none
    else pure (some ⟨sr.1, sr.2, infl_get_interpretation sr.1, isMenstruating, m⟩)

def oxy_convert_units_hemoglobinE (value : ℚ) (unit : List Char) : Except String ℚ :=
  if containsSub (("g/l").data) (lowerStr unit) ∧
     ¬ containsSub (("g/dl").data) (lowerStr unit) then ediv value 10
  else if containsSub (("mmol/l").data) (lowerStr unit) then pure (value * 1.611)
  else pure value

def oxy_convert_units_rbcE (value : ℚ) (unit : List Char) : Except String ℚ :=
  if containsSub (("x10^6").data) (lowerStr unit) ∨ containsSub (("10^6").data) (lowerStr unit) ∨
     containsSub (("million").data) (lowerStr unit) then ediv value 1000
  else pure value

def oxy_convert_units_ironE (value : ℚ) (unit : List Char) : Except String ℚ :=
  if containsSub (("µmol/l").data) (lowerStr unit) ∨
     containsSub (("umol/l").data) (lowerStr unit) then pure (value * 5.587)
  else if containsSub (("µg/l").data) (lowerStr unit) ∨
     containsSub (("ug/l").data) (lowerStr unit) then ediv value 10
  else pure value

def resolveMarkerE (pUnit : Char → Bool) (convE : ℚ → List Char → Except String ℚ)
    (aliases : List (List Char)) (panel : List (String × RawValue)) :
    Except String (Option ℚ) :=
  match aliases with
  | [] => .ok none
  | a :: rest =>
    match findEntryParsed pUnit a panel with
    | some (q, u) => (convE q u).map some
    | none => resolveMarkerE pUnit convE rest panel

def extract_oxygen_biomarkersE (panel : List (String × RawValue)) :
    Except String OMarkers := do
  let hb ← resolveMarkerE isUnitCharO oxy_convert_units_hemoglobinE oxy_aliases_hemoglobin panel
  let hct ← resolveMarkerE isUnitCharO (fun v u => pure (oxy_convert_units_hematocrit v u))
    oxy_aliases_hematocrit panel
  let r ← resolveMarkerE isUnitCharO oxy_convert_units_rbcE oxy_aliases_rbc panel
  let fe ← resolveMarkerE isUnitCharO oxy_convert_units_ironE oxy_aliases_iron panel
  pure ⟨hb, hct, r, fe⟩

def oxy_calculate_z_scoresE (m : OMarkers) : Except String OMarkers := do
  let hb ← omapE (zNegE 13.5 1.2) m.hemoglobin
  let hct ← omapE (zNegE 41 3.5) m.hematocrit
  let r ← omapE (zNegE 4.5 0.35) m.rbc
  let fe ← omapE (zNegE 90 25) m.iron
  pure ⟨hb, hct, r, fe⟩

def compute_oxygen_scoreE (panel : List (String × RawValue)) :
    Except String (Option OxyResult) := do
  let m ← extract_oxygen_biomarkersE panel
  if omarkers_count m < 2 then pure none
  else
    let z ← oxy_calculate_z_scoresE m
    let sr := oxy_calculate_score z
    if sr.2 < 2 then pure none
    else pure (some ⟨sr.1, sr.2, oxy_get_interpretation sr.1, m⟩)

/-! # Definitions taken from the specification's wording
(for refinement-style comparison with the code; not part of the embedding). -/

/-- Key normalisation as the specification words it: lower-case and replace
both spaces and hyphens with underscores. -/
def claimNormKey (s : String) : List Char :=
  (lowerStr s.data).map (fun c => if c = ' ' ∨ c = '-' then '_' else c)

/-- Alias resolution as the specification words it: the first successfully
parsed panel entry, scanning aliases in list order and panel entries in
insertion order. -/
def specResolve (pUnit : Char → Bool) (conv : ℚ → List Char → ℚ)
    (aliases : List (List Char)) (panel : List (String × RawValue)) : Option ℚ :=
  aliases.findSome? fun a =>
    panel.findSome? fun kv =>
      if normKey kv.1 = a then
        (re_parse_biomarker kv.2).map fun q => conv q (unitToken pUnit kv.2)
      else none

/-! # Order relations used to state monotonicity -/

/-- Pointwise order on optional values with identical presence pattern. -/
def oLE (a b : Option ℚ) : Prop :=
  match a, b with
  | none, none => True
  | some x, some y => x ≤ y
  | _, _ => False

/-- Order on optional scores: both absent, or both present and ordered. -/
def optScoreLE (a b : Option ℚ) : Prop := oLE a b

/-- Pointwise order on metabolic marker maps. -/
def mmLE (d d' : MetabMarkers) : Prop :=
  oLE d.homa d'.homa ∧ oLE d.tg_hdl d'.tg_hdl ∧ oLE d.apob_a1 d'.apob_a1 ∧ oLE d.hba1c d'.hba1c

/-- Pointwise order on inflammation marker maps. -/
def imLE (m m' : IMarkers) : Prop :=
  oLE m.hscrp m'.hscrp ∧ oLE m.esr m'.esr ∧ oLE m.ferritin m'.ferritin ∧ oLE m.wbc m'.wbc

/-- Pointwise order on oxygen marker maps. -/
def omLE (m m' : OMarkers) : Prop :=
  oLE m.hemoglobin m'.hemoglobin ∧ oLE m.hematocrit m'.hematocrit ∧
  oLE m.rbc m'.rbc ∧ oLE m.iron m'.iron

/-! # Helper lemmas -/

theorem floor_le_roundTE (x : ℚ) : ⌊x⌋ ≤ roundTE x := by
  unfold roundTE
  split_ifs with h1 h2
  · exact le_refl _
  · omega
  · rw [round_eq]
    exact Int.floor_le_floor (by linarith)

theorem roundTE_le_floor_add_one (x : ℚ) : roundTE x ≤ ⌊x⌋ + 1 := by
  unfold roundTE
  split_ifs with h1 h2
  · omega
  · exact le_refl _
  · rw [round_eq]
    have : ⌊x + 1 / 2⌋ ≤ ⌊x + 1⌋ := Int.floor_le_floor (by linarith)
    simpa using this.trans_eq (by rw [Int.floor_add_one])

theorem eq_floor_add_half {x : ℚ} (h : Int.fract x = 1 / 2) : x = (⌊x⌋ : ℚ) + 1 / 2 := by
  have := Int.floor_add_fract x
  rw [h] at this
  linarith

theorem roundTE_le_roundTE {x y : ℚ} (hxy : x ≤ y) : roundTE x ≤ roundTE y := by
  rcases eq_or_lt_of_le hxy with rfl | hlt
  · exact le_refl _
  by_cases hx : Int.fract x = 1 / 2 <;> by_cases hy : Int.fract y = 1 / 2
  · have hx' := eq_floor_add_half hx
    have hy' := eq_floor_add_half hy
    have hff : ⌊x⌋ < ⌊y⌋ := by
      have : (⌊x⌋ : ℚ) < (⌊y⌋ : ℚ) := by linarith
      exact_mod_cast this
    calc roundTE x ≤ ⌊x⌋ + 1 := roundTE_le_floor_add_one x
      _ ≤ ⌊y⌋ := by omega
      _ ≤ roundTE y := floor_le_roundTE y
  · have hx' := eq_floor_add_half hx
    have h1 : roundTE x ≤ ⌊x⌋ + 1 := roundTE_le_floor_add_one x
    have h2 : (⌊x⌋ + 1 : ℤ) ≤ ⌊y + 1 / 2⌋ := by
      rw [Int.le_floor]
      push_cast
      linarith
    have h3 : roundTE y = ⌊y + 1 / 2⌋ := by
      unfold roundTE
      rw [if_neg hy, round_eq]
    omega
  · have hy' := eq_floor_add_half hy
    have h1 : roundTE x = ⌊x + 1 / 2⌋ := by
      unfold roundTE
      rw [if_neg hx, round_eq]
    have h2 : ⌊x + 1 / 2⌋ < ⌊y⌋ + 1 := by
      rw [Int.floor_lt]
      push_cast
      linarith
    have h3 : ⌊y⌋ ≤ roundTE y := floor_le_roundTE y
    omega
  · unfold roundTE
    rw [if_neg hx, if_neg hy, round_eq, round_eq]
    exact Int.floor_le_floor (by linarith)

theorem round1_mono {x y : ℚ} (h : x ≤ y) : round1 x ≤ round1 y := by
  unfold round1
  have := roundTE_le_roundTE (show 10 * x ≤ 10 * y by linarith)
  have h10 : (roundTE (10 * x) : ℚ) ≤ (roundTE (10 * y) : ℚ) := by exact_mod_cast this
  linarith

theorem roundTE_intCast (n : ℤ) : roundTE (n : ℚ) = n := by
  unfold roundTE
  rw [Int.fract_intCast]
  norm_num

theorem round1_of_eq_int {x : ℚ} {n : ℤ} (h : 10 * x = (n : ℚ)) : round1 x = n / 10 := by
  unfold round1
  rw [h, roundTE_intCast]

theorem clamp100_mem (x : ℚ) : 0 ≤ clamp100 x ∧ clamp100 x ≤ 100 := by
  unfold clamp100
  constructor
  · exact le_max_left _ _
  · rcases le_or_lt x 100 with h | h
    · simp [min_le_iff, max_le_iff]
    · simp [min_le_iff, max_le_iff]

theorem clamp100_mono {x y : ℚ} (h : x ≤ y) : clamp100 x ≤ clamp100 y := by
  unfold clamp100
  exact max_le_max (le_refl _) (min_le_min (le_refl _) h)

theorem round1_clamp_bounds (x : ℚ) : 0 ≤ round1 (clamp100 x) ∧ round1 (clamp100 x) ≤ 100 := by
  have h1 := clamp100_mem x
  have h2 : round1 0 ≤ round1 (clamp100 x) := round1_mono h1.1
  have h3 : round1 (clamp100 x) ≤ round1 100 := round1_mono h1.2
  have h0 : round1 0 = 0 := by
    have : (10 : ℚ) * 0 = ((0 : ℤ) : ℚ) := by norm_num
    rw [round1_of_eq_int this]
    norm_num
  have h100 : round1 100 = 100 := by
    have : (10 : ℚ) * 100 = ((1000 : ℤ) : ℚ) := by norm_num
    rw [round1_of_eq_int this]
    norm_num
  constructor <;> linarith

theorem zPos_nonneg (mean sd v : ℚ) : 0 ≤ zPos mean sd v := le_max_left _ _

theorem zNeg_nonneg (mean sd v : ℚ) : 0 ≤ zNeg mean sd v := abs_nonneg _

theorem zPos_mono {sd : ℚ} (hsd : 0 < sd) (mean : ℚ) {v w : ℚ} (h : v ≤ w) :
    zPos mean sd v ≤ zPos mean sd w := by
  unfold zPos
  have : (v - mean) / sd ≤ (w - mean) / sd := by
    rw [div_le_div_right hsd]
    linarith
  exact max_le_max (le_refl _) this

theorem zNeg_anti {sd : ℚ} (hsd : 0 < sd) (mean : ℚ) {v w : ℚ} (h : v ≤ w) :
    zNeg mean sd w ≤ zNeg mean sd v := by
  unfold zNeg
  have hdiv : (v - mean) / sd ≤ (w - mean) / sd := by
    rw [div_le_div_right hsd]
    linarith
  have h1 : min 0 ((w - mean) / sd) ≤ 0 := min_le_left _ _
  have h2 : min 0 ((v - mean) / sd) ≤ 0 := min_le_left _ _
  rw [abs_of_nonpos h1, abs_of_nonpos h2]
  have : min 0 ((v - mean) / sd) ≤ min 0 ((w - mean) / sd) :=
    min_le_min (le_refl _) hdiv
  linarith

theorem oLE_map_mono {f : ℚ → ℚ} (hf : ∀ x y, x ≤ y → f x ≤ f y) {a b : Option ℚ}
    (h : oLE a b) : oLE (a.map f) (b.map f) := by
  cases a <;> cases b <;> simp_all [oLE] <;> exact hf _ _ h

theorem oLE_map_anti {f : ℚ → ℚ} (hf : ∀ x y, x ≤ y → f y ≤ f x) {a b : Option ℚ}
    (h : oLE a b) : oLE (b.map f) (a.map f) := by
  cases a <;> cases b <;> simp_all [oLE] <;> exact hf _ _ h

theorem optTerm_mono {w : ℚ} (hw : 0 ≤ w) {a b : Option ℚ} (h : oLE a b) :
    optTerm w a ≤ optTerm w b := by
  cases a <;> cases b <;> simp_all [oLE, optTerm] <;>
    exact mul_le_mul_of_nonneg_left h hw

theorem optCount_eq_of_oLE {a b : Option ℚ} (h : oLE a b) : optCount a = optCount b := by
  cases a <;> cases b <;> simp_all [oLE, optCount]

theorem optWeight_eq_of_oLE (w : ℚ) {a b : Option ℚ} (h : oLE a b) :
    optWeight w a = optWeight w b := by
  cases a <;> cases b <;> simp_all [oLE, optWeight]
theorem metab_z_mono {d d' : MetabMarkers} (h : mmLE d d') :
    mmLE (metab_calculate_z_scores d) (metab_calculate_z_scores d') := by
  obtain ⟨h1, h2, h3, h4⟩ := h
  exact ⟨oLE_map_mono (fun x y hxy => zPos_mono (by norm_num) _ hxy) h1,
         oLE_map_mono (fun x y hxy => zPos_mono (by norm_num) _ hxy) h2,
         oLE_map_mono (fun x y hxy => zPos_mono (by norm_num) _ hxy) h3,
         oLE_map_mono (fun x y hxy => zPos_mono (by norm_num) _ hxy) h4⟩

theorem metab_penalty_raw_mono {z z' : MetabMarkers} (h : mmLE z z') :
    metab_penalty_raw z ≤ metab_penalty_raw z' := by
  obtain ⟨h1, h2, h3, h4⟩ := h
  unfold metab_penalty_raw
  have t1 := optTerm_mono (by norm_num : (0 : ℚ) ≤ 0.4) h1
  have t2 := optTerm_mono (by norm_num : (0 : ℚ) ≤ 0.3) h2
  have t3 := optTerm_mono (by norm_num : (0 : ℚ) ≤ 0.2) h3
  have t4 := optTerm_mono (by norm_num : (0 : ℚ) ≤ 0.1) h4
  linarith

theorem metab_total_weight_eq {z z' : MetabMarkers} (h : mmLE z z') :
    metab_total_weight z = metab_total_weight z' := by
  obtain ⟨h1, h2, h3, h4⟩ := h
  unfold metab_total_weight
  rw [optWeight_eq_of_oLE _ h1, optWeight_eq_of_oLE _ h2,
      optWeight_eq_of_oLE _ h3, optWeight_eq_of_oLE _ h4]

theorem metab_markers_used_eq {z z' : MetabMarkers} (h : mmLE z z') :
    metab_markers_used z = metab_markers_used z' := by
  obtain ⟨h1, h2, h3, h4⟩ := h
  unfold metab_markers_used
  rw [optCount_eq_of_oLE h1, optCount_eq_of_oLE h2, optCount_eq_of_oLE h3, optCount_eq_of_oLE h4]

theorem metab_penalty_mono {z z' : MetabMarkers} (h : mmLE z z') :
    metab_penalty z ≤ metab_penalty z' := by
  have hw := metab_total_weight_eq h
  have hp := metab_penalty_raw_mono h
  unfold metab_penalty
  rw [← hw]
  split_ifs with hcond
  · exact (div_le_div_right hcond.1).mpr hp
  · exact hp

theorem metab_score_anti {d d' : MetabMarkers} (h : mmLE d d') :
    optScoreLE (metab_calculate_score (metab_calculate_z_scores d')).1
      (metab_calculate_score (metab_calculate_z_scores d)).1 := by
  have hz := metab_z_mono h
  have hused := metab_markers_used_eq hz
  have hpen := metab_penalty_mono hz
  unfold metab_calculate_score
  rw [← hused]
  split_ifs with h0
  · trivial
  · show round1 (clamp100 (100 - 15 * metab_penalty (metab_calculate_z_scores d'))) ≤
      round1 (clamp100 (100 - 15 * metab_penalty (metab_calculate_z_scores d)))
    exact round1_mono (clamp100_mono (by linarith))

theorem infl_z_mono {m m' : IMarkers} (h : imLE m m') (b : Bool) :
    imLE (infl_calculate_z_scores m b) (infl_calculate_z_scores m' b) := by
  obtain ⟨h1, h2, h3, h4⟩ := h
  cases b <;>
    exact ⟨oLE_map_mono (fun x y hxy => zPos_mono (by norm_num) _ hxy) h1,
           oLE_map_mono (fun x y hxy => zPos_mono (by norm_num) _ hxy) h2,
           oLE_map_mono (fun x y hxy => zPos_mono (by norm_num) _ hxy) h3,
           oLE_map_mono (fun x y hxy => zPos_mono (by norm_num) _ hxy) h4⟩

theorem infl_penalty_mono {z z' : IMarkers} (h : imLE z z') :
    infl_penalty z ≤ infl_penalty z' := by
  obtain ⟨h1, h2, h3, h4⟩ := h
  unfold infl_penalty
  have t1 := optTerm_mono (by norm_num : (0 : ℚ) ≤ 0.40) h1
  have t2 := optTerm_mono (by norm_num : (0 : ℚ) ≤ 0.25) h2
  have t3 := optTerm_mono (by norm_num : (0 : ℚ) ≤ 0.20) h3
  have t4 := optTerm_mono (by norm_num : (0 : ℚ) ≤ 0.15) h4
  linarith

theorem infl_markers_used_eq {z z' : IMarkers} (h : imLE z z') :
    infl_markers_used z = infl_markers_used z' := by
  obtain ⟨h1, h2, h3, h4⟩ := h
  unfold infl_markers_used
  rw [optCount_eq_of_oLE h1, optCount_eq_of_oLE h2, optCount_eq_of_oLE h3, optCount_eq_of_oLE h4]

theorem infl_score_anti {m m' : IMarkers} (h : imLE m m') (b : Bool) :
    (infl_calculate_score (infl_calculate_z_scores m' b)).1 ≤
      (infl_calculate_score (infl_calculate_z_scores m b)).1 := by
  have hz := infl_z_mono h b
  have hused := infl_markers_used_eq hz
  have hpen := infl_penalty_mono hz
  unfold infl_calculate_score
  rw [← hused]
  split_ifs with h0
  · exact le_refl _
  · exact round1_mono (clamp100_mono (by linarith))

theorem oxy_z_anti {m m' : OMarkers} (h : omLE m m') :
    omLE (oxy_calculate_z_scores m') (oxy_calculate_z_scores m) := by
  obtain ⟨h1, h2, h3, h4⟩ := h
  exact ⟨oLE_map_anti (fun x y hxy => zNeg_anti (by norm_num) _ hxy) h1,
         oLE_map_anti (fun x y hxy => zNeg_anti (by norm_num) _ hxy) h2,
         oLE_map_anti (fun x y hxy => zNeg_anti (by norm_num) _ hxy) h3,
         oLE_map_anti (fun x y hxy => zNeg_anti (by norm_num) _ hxy) h4⟩

theorem oxy_penalty_mono {z z' : OMarkers} (h : omLE z z') :
    oxy_penalty z ≤ oxy_penalty z' := by
  obtain ⟨h1, h2, h3, h4⟩ := h
  unfold oxy_penalty
  have t1 := optTerm_mono (by norm_num : (0 : ℚ) ≤ 0.40) h1
  have t2 := optTerm_mono (by norm_num : (0 : ℚ) ≤ 0.25) h2
  have t3 := optTerm_mono (by norm_num : (0 : ℚ) ≤ 0.20) h3
  have t4 := optTerm_mono (by norm_num : (0 : ℚ) ≤ 0.15) h4
  linarith

theorem oxy_markers_used_eq {z z' : OMarkers} (h : omLE z z') :
    oxy_markers_used z = oxy_markers_used z' := by
  obtain ⟨h1, h2, h3, h4⟩ := h
  unfold oxy_markers_used
  rw [optCount_eq_of_oLE h1, optCount_eq_of_oLE h2, optCount_eq_of_oLE h3, optCount_eq_of_oLE h4]

theorem oxy_score_mono {m m' : OMarkers} (h : omLE m m') :
    (oxy_calculate_score (oxy_calculate_z_scores m)).1 ≤
      (oxy_calculate_score (oxy_calculate_z_scores m')).1 := by
  have hz := oxy_z_anti h
  have hused := oxy_markers_used_eq hz
  have hpen := oxy_penalty_mono hz
  unfold oxy_calculate_score
  rw [hused]
  split_ifs with h0
  · exact le_refl _
  · exact round1_mono (clamp100_mono (by linarith))

theorem optCount_map (f : ℚ → ℚ) (o : Option ℚ) : optCount (o.map f) = optCount o := by
  cases o <;> rfl

/-- The z-score step preserves which inflammation markers are present. -/
theorem infl_used_eq_count (m : IMarkers) (b : Bool) :
    infl_markers_used (infl_calculate_z_scores m b) = imarkers_count m := by
  cases b <;>
    simp [infl_markers_used, infl_calculate_z_scores, imarkers_count, optCount_map]

/-- The z-score step preserves which oxygen markers are present. -/
theorem oxy_used_eq_count (m : OMarkers) :
    oxy_markers_used (oxy_calculate_z_scores m) = omarkers_count m := by
  simp [oxy_markers_used, oxy_calculate_z_scores, omarkers_count, optCount_map]

/-- The two nested extraction loops implement a lexicographic first match
over (alias order, panel insertion order). -/
theorem resolveMarker_eq_specResolve (pUnit : Char → Bool) (conv : ℚ → List Char → ℚ)
    (aliases : List (List Char)) (panel : List (String × RawValue)) :
    resolveMarker pUnit conv aliases panel = specResolve pUnit conv aliases panel := by
  induction aliases with
  | nil => rfl
  | cons a rest ih =>
    unfold resolveMarker specResolve
    rw [List.findSome?_cons]
    have hinner : ∀ pl : List (String × RawValue),
        (pl.findSome? fun kv =>
          if normKey kv.1 = a then
            (re_parse_biomarker kv.2).map fun q => conv q (unitToken pUnit kv.2)
          else none) =
        (findEntryParsed pUnit a pl).map fun qu => conv qu.1 qu.2 := by
      intro pl
      induction pl with
      | nil => rfl
      | cons kv tl ihp =>
        rw [List.findSome?_cons]
        by_cases hk : normKey kv.1 = a
        · simp only [findEntryParsed, hk, if_pos]
          cases hv : re_parse_biomarker kv.2 <;> simp [hv, ihp]
        · simp only [findEntryParsed, hk, if_neg, if_false]
          simpa [hk] using ihp
    rw [hinner panel]
    cases hfe : findEntryParsed pUnit a panel with
    | none =>
      simpa [specResolve] using ih
    | some qu => rfl

theorem ediv_ok {b : ℚ} (hb : b ≠ 0) (a : ℚ) : ediv a b = .ok (a / b) := by
  simp [ediv, hb]

theorem zPosE_ok {sd : ℚ} (hsd : sd ≠ 0) (mean v : ℚ) :
    zPosE mean sd v = .ok (zPos mean sd v) := by
  simp [zPosE, ediv_ok hsd, Except.map, zPos]

theorem zNegE_ok {sd : ℚ} (hsd : sd ≠ 0) (mean v : ℚ) :
    zNegE mean sd v = .ok (zNeg mean sd v) := by
  simp [zNegE, ediv_ok hsd, Except.map, zNeg]

theorem omapE_ok {f : ℚ → Except String ℚ} {g : ℚ → ℚ}
    (hf : ∀ v, f v = .ok (g v)) (o : Option ℚ) : omapE f o = .ok (o.map g) := by
  cases o <;> simp [omapE, hf, Except.map]

theorem convertGlucoseE_ok (o : Option ℚ) : convertGlucoseE o = .ok (convertGlucose o) := by
  cases o with
  | none => rfl
  | some v =>
    by_cases h : v ≠ 0 ∧ v > 20
    · simp [convertGlucoseE, convertGlucose, h, ediv_ok (by norm_num : (18 : ℚ) ≠ 0), Except.map]
    · by_cases h0 : v = 0
      · simp [convertGlucoseE, convertGlucose, h, h0]
      · have h20 : ¬ (20 < v) := fun hgt => h ⟨h0, hgt⟩
        simp [convertGlucoseE, convertGlucose, h, h0, h20]

theorem metab_convert_unitsE_ok (p : MetabolicPanel) :
    metab_convert_unitsE p = .ok (metab_convert_units p) := by
  simp [metab_convert_unitsE, convertGlucoseE_ok, metab_convert_units, Bind.bind, Except.bind,
        pure, Except.pure]

theorem metab_calculate_derived_markersE_ok (v : MetabValues) :
    metab_calculate_derived_markersE v = .ok (metab_calculate_derived_markers v) := by
  unfold metab_calculate_derived_markersE metab_calculate_derived_markers
  cases hg : v.glucose_mmol <;> cases hi : v.insulin_u <;>
    cases ht : v.tg_mgdl <;> cases hh : v.hdl_mgdl <;>
      cases hb : v.apob_mgdl <;> cases ha : v.apoa1_mgdl <;>
        (simp only [Bind.bind, Except.bind, pure, Except.pure] <;>
         split_ifs <;>
         simp_all [ediv, Except.map, show ¬ ((22.5 : ℚ) = 0) by norm_num])

theorem metab_calculate_z_scoresE_ok (d : MetabMarkers) :
    metab_calculate_z_scoresE d = .ok (metab_calculate_z_scores d) := by
  unfold metab_calculate_z_scoresE metab_calculate_z_scores
  rw [omapE_ok (fun v => zPosE_ok (show (0.8 : ℚ) ≠ 0 by norm_num) 1.46 v),
      omapE_ok (fun v => zPosE_ok (show (1.0 : ℚ) ≠ 0 by norm_num) 2.0 v),
      omapE_ok (fun v => zPosE_ok (show (0.3 : ℚ) ≠ 0 by norm_num) 0.9 v),
      omapE_ok (fun v => zPosE_ok (show (0.4 : ℚ) ≠ 0 by norm_num) 5.3 v)]
  simp [Bind.bind, Except.bind, pure, Except.pure]

theorem metab_calculate_scoreE_ok (z : MetabMarkers) :
    metab_calculate_scoreE z = .ok (metab_calculate_score z) := by
  unfold metab_calculate_scoreE metab_calculate_score
  by_cases h0 : metab_markers_used z = 0
  · simp [h0, pure, Except.pure]
  · by_cases hw : 0 < metab_total_weight z ∧ metab_total_weight z < 1
    · simp [h0, hw, Bind.bind, Except.bind, pure, Except.pure,
            ediv_ok (ne_of_gt hw.1), metab_penalty]
    · simp [h0, hw, Bind.bind, Except.bind, pure, Except.pure, metab_penalty]

theorem exbind_ok {α β : Type} (a : α) (f : α → Except String β) :
    Except.bind (Except.ok a) f = f a := rfl

theorem compute_metabolic_scoreE_ok (p : MetabolicPanel) :
    compute_metabolic_scoreE p = .ok (compute_metabolic_score p) := by
  unfold compute_metabolic_scoreE compute_metabolic_score metab_score_from_values
    metab_derived_full
  simp only [Bind.bind]
  rw [metab_convert_unitsE_ok, exbind_ok, metab_calculate_derived_markersE_ok, exbind_ok,
      metab_calculate_z_scoresE_ok, exbind_ok, metab_calculate_scoreE_ok, exbind_ok]
  generalize metab_calculate_score (metab_calculate_z_scores
    ⟨(metab_calculate_derived_markers (metab_convert_units p)).homa,
     (metab_calculate_derived_markers (metab_convert_units p)).tg_hdl,
     (metab_calculate_derived_markers (metab_convert_units p)).apob_a1,
     if otruthy (metab_convert_units p).hba1c = true then (metab_convert_units p).hba1c
     else none⟩) = sr
  rcases sr with ⟨_ | s, used⟩ <;> rfl

theorem infl_calculate_z_scoresE_ok (m : IMarkers) (b : Bool) :
    infl_calculate_z_scoresE m b = .ok (infl_calculate_z_scores m b) := by
  cases b
  · unfold infl_calculate_z_scoresE infl_calculate_z_scores
    simp only [Bool.false_eq_true, if_false, Bind.bind]
    rw [omapE_ok (fun v => zPosE_ok (show (1.0 : ℚ) ≠ 0 by norm_num) 1.5 v), exbind_ok,
        omapE_ok (fun v => zPosE_ok (show (10 : ℚ) ≠ 0 by norm_num) 20 v), exbind_ok,
        omapE_ok (fun v => zPosE_ok (show (50 : ℚ) ≠ 0 by norm_num) 100 v), exbind_ok,
        omapE_ok (fun v => zPosE_ok (show (2.0 : ℚ) ≠ 0 by norm_num) 6.5 v), exbind_ok]
    rfl
  · unfold infl_calculate_z_scoresE infl_calculate_z_scores
    simp only [if_true, Bind.bind]
    rw [omapE_ok (fun v => zPosE_ok (show (0.8 : ℚ) ≠ 0 by norm_num) 0.8 v), exbind_ok,
        omapE_ok (fun v => zPosE_ok (show (8 : ℚ) ≠ 0 by norm_num) 12 v), exbind_ok,
        omapE_ok (fun v => zPosE_ok (show (20 : ℚ) ≠ 0 by norm_num) 35 v), exbind_ok,
        omapE_ok (fun v => zPosE_ok (show (2.0 : ℚ) ≠ 0 by norm_num) 6.5 v), exbind_ok]
    rfl

theorem compute_inflammation_scoreE_ok (panel : List (String × RawValue)) (b : Bool) :
    compute_inflammation_scoreE panel b = .ok (compute_inflammation_score panel b) := by
  unfold compute_inflammation_scoreE compute_inflammation_score
  by_cases hc : imarkers_count (extract_inflammation_biomarkers panel) < 2
  · simp [hc, pure, Except.pure]
  · simp only [hc, if_false, Bind.bind]
    rw [infl_calculate_z_scoresE_ok, exbind_ok]
    by_cases hs : (infl_calculate_score
        (infl_calculate_z_scores (extract_inflammation_biomarkers panel) b)).2 < 2 <;>
      simp [hs, pure, Except.pure]

theorem oxy_convert_units_hemoglobinE_ok (v : ℚ) (u : List Char) :
    oxy_convert_units_hemoglobinE v u = .ok (oxy_convert_units_hemoglobin v u) := by
  unfold oxy_convert_units_hemoglobinE oxy_convert_units_hemoglobin
  split_ifs <;> simp [ediv_ok (show (10 : ℚ) ≠ 0 by norm_num), pure, Except.pure]

theorem oxy_convert_units_rbcE_ok (v : ℚ) (u : List Char) :
    oxy_convert_units_rbcE v u = .ok (oxy_convert_units_rbc v u) := by
  unfold oxy_convert_units_rbcE oxy_convert_units_rbc
  split_ifs <;> simp [ediv_ok (show (1000 : ℚ) ≠ 0 by norm_num), pure, Except.pure]

theorem oxy_convert_units_ironE_ok (v : ℚ) (u : List Char) :
    oxy_convert_units_ironE v u = .ok (oxy_convert_units_iron v u) := by
  unfold oxy_convert_units_ironE oxy_convert_units_iron
  split_ifs <;> simp [ediv_ok (show (10 : ℚ) ≠ 0 by norm_num), pure, Except.pure]

theorem resolveMarkerE_ok {convE : ℚ → List Char → Except String ℚ}
    {conv : ℚ → List Char → ℚ} (hconv : ∀ v u, convE v u = .ok (conv v u))
    (pUnit : Char → Bool) (aliases : List (List Char)) (panel : List (String × RawValue)) :
    resolveMarkerE pUnit convE aliases panel = .ok (resolveMarker pUnit conv aliases panel) := by
  induction aliases with
  | nil => rfl
  | cons a rest ih =>
    unfold resolveMarkerE resolveMarker
    cases findEntryParsed pUnit a panel with
    | none => exact ih
    | some qu => simp [hconv, Except.map]

theorem extract_oxygen_biomarkersE_ok (panel : List (String × RawValue)) :
    extract_oxygen_biomarkersE panel = .ok (extract_oxygen_biomarkers panel) := by
  unfold extract_oxygen_biomarkersE extract_oxygen_biomarkers
  simp only [Bind.bind]
  rw [resolveMarkerE_ok oxy_convert_units_hemoglobinE_ok, exbind_ok,
      @resolveMarkerE_ok (fun v u => pure (oxy_convert_units_hematocrit v u))
        oxy_convert_units_hematocrit (fun v u => rfl) isUnitCharO oxy_aliases_hematocrit panel,
      exbind_ok,
      resolveMarkerE_ok oxy_convert_units_rbcE_ok, exbind_ok,
      resolveMarkerE_ok oxy_convert_units_ironE_ok, exbind_ok]
  rfl

theorem oxy_calculate_z_scoresE_ok (m : OMarkers) :
    oxy_calculate_z_scoresE m = .ok (oxy_calculate_z_scores m) := by
  unfold oxy_calculate_z_scoresE oxy_calculate_z_scores
  simp only [Bind.bind]
  rw [omapE_ok (fun v => zNegE_ok (show (1.2 : ℚ) ≠ 0 by norm_num) 13.5 v), exbind_ok,
      omapE_ok (fun v => zNegE_ok (show (3.5 : ℚ) ≠ 0 by norm_num) 41 v), exbind_ok,
      omapE_ok (fun v => zNegE_ok (show (0.35 : ℚ) ≠ 0 by norm_num) 4.5 v), exbind_ok,
      omapE_ok (fun v => zNegE_ok (show (25 : ℚ) ≠ 0 by norm_num) 90 v), exbind_ok]
  rfl

theorem compute_oxygen_scoreE_ok (panel : List (String × RawValue)) :
    compute_oxygen_scoreE panel = .ok (compute_oxygen_score panel) := by
  unfold compute_oxygen_scoreE compute_oxygen_score
  simp only [Bind.bind]
  rw [extract_oxygen_biomarkersE_ok, exbind_ok]
  by_cases hc : omarkers_count (extract_oxygen_biomarkers panel) < 2
  · simp [hc, pure, Except.pure]
  · simp only [hc, if_false, Bind.bind]
    rw [oxy_calculate_z_scoresE_ok, exbind_ok]
    by_cases hs : (oxy_calculate_score
        (oxy_calculate_z_scores (extract_oxygen_biomarkers panel))).2 < 2 <;>
      simp [hs, pure, Except.pure]

/-! # Concrete-panel evaluation helpers -/

theorem metab_parse_vNone : metab_parse_biomarker .vNone = none := rfl

theorem metab_parse_hba1c_eval : metab_parse_biomarker (.vStr "5.0%") = some 5 := by
  simp [metab_parse_biomarker, stripUnitSuffixes, metabSuffixes, trimChars, replaceAll,
        parsePyFloat, applyExponent, signSplit, decToRat, digitsToNat, digitVal]

theorem metab_values_hba1c_only :
    metab_convert_units ⟨.vNone, .vNone, .vNone, .vNone, .vNone, .vNone, .vStr "5.0%"⟩ =
      ⟨none, none, none, none, none, none, some 5⟩ := by
  simp [metab_convert_units, metab_parse_hba1c_eval, metab_parse_vNone,
        convertGlucose, convertTg, convertLipid]

theorem compute_metab_hba1c_only :
    compute_metabolic_score ⟨.vNone, .vNone, .vNone, .vNone, .vNone, .vNone, .vStr "5.0%"⟩ =
      some ⟨100, 1, .optimal, ⟨none, none, none, some 5⟩⟩ := by
  rw [compute_metabolic_score, metab_values_hba1c_only]
  have hd : metab_derived_full ⟨none, none, none, none, none, none, some 5⟩ =
      ⟨none, none, none, some 5⟩ := by
    simp [metab_derived_full, metab_calculate_derived_markers, otruthy]
  rw [metab_score_from_values, hd]
  have hz : metab_calculate_z_scores ⟨none, none, none, some 5⟩ = ⟨none, none, none, some 0⟩ := by
    simp [metab_calculate_z_scores, zPos]
    norm_num
  rw [hz]
  have hs : metab_calculate_score ⟨none, none, none, some 0⟩ = (some 100, 1) := by
    simp [metab_calculate_score, metab_markers_used, optCount, metab_penalty,
          metab_total_weight, metab_penalty_raw, optTerm, optWeight, clamp100]
    norm_num [round1, roundTE, Int.fract, round_eq]
  rw [hs]
  norm_num [metab_get_interpretation]

theorem metab_z_hba1c_only :
    metab_markers_used (metab_z
      ⟨.vNone, .vNone, .vNone, .vNone, .vNone, .vNone, .vStr "5.0%"⟩) = 1 := by
  rw [metab_z, metab_values_hba1c_only]
  simp [metab_derived_full, metab_calculate_derived_markers, otruthy,
        metab_calculate_z_scores, metab_markers_used, optCount]

/-- Claim C1 (amended): the inflammation and oxygen facades return null with
at most one resolved marker and a non-null result with `markers_used = 2` for
exactly two; the metabolic facade returns null exactly when zero markers
contribute — one contributing marker already yields a non-null result. -/
theorem C1_insufficient_data_floor :
    (∀ p : MetabolicPanel, metab_markers_used (metab_z p) = 0 →
      compute_metabolic_score p = none) ∧
    (∀ p : MetabolicPanel, 1 ≤ metab_markers_used (metab_z p) →
      ∃ r, compute_metabolic_score p = some r ∧
        r.markersUsed = metab_markers_used (metab_z p)) ∧
    (∀ (panel : List (String × RawValue)) (b : Bool),
      imarkers_count (extract_inflammation_biomarkers panel) ≤ 1 →
      compute_inflammation_score panel b = none) ∧
    (∀ (panel : List (String × RawValue)) (b : Bool),
      imarkers_count (extract_inflammation_biomarkers panel) = 2 →
      ∃ r, compute_inflammation_score panel b = some r ∧ r.markersUsed = 2) ∧
    (∀ panel : List (String × RawValue),
      omarkers_count (extract_oxygen_biomarkers panel) ≤ 1 →
      compute_oxygen_score panel = none) ∧
    (∀ panel : List (String × RawValue),
      omarkers_count (extract_oxygen_biomarkers panel) = 2 →
      ∃ r, compute_oxygen_score panel = some r ∧ r.markersUsed = 2) := by
  refine ⟨?_, ?_, ?_, ?_, ?_, ?_⟩
  · intro p h0
    unfold compute_metabolic_score metab_score_from_values
    have hz : metab_calculate_score (metab_calculate_z_scores
        (metab_derived_full (metab_convert_units p))) = (none, 0) := by
      unfold metab_calculate_score
      rw [if_pos (by simpa [metab_z] using h0)]
    rw [hz]
  · intro p h1
    unfold compute_metabolic_score metab_score_from_values
    have hne : metab_markers_used (metab_calculate_z_scores
        (metab_derived_full (metab_convert_units p))) ≠ 0 := by
      have : metab_markers_used (metab_z p) ≠ 0 := by omega
      simpa [metab_z] using this
    have hz : metab_calculate_score (metab_calculate_z_scores
        (metab_derived_full (metab_convert_units p))) =
        (some (round1 (clamp100 (100 - 15 * metab_penalty (metab_calculate_z_scores
          (metab_derived_full (metab_convert_units p)))))),
         metab_markers_used (metab_calculate_z_scores
          (metab_derived_full (metab_convert_units p)))) := by
      unfold metab_calculate_score
      rw [if_neg hne]
    rw [hz]
    exact ⟨_, rfl, by simp [metab_z]⟩
  · intro panel b hle
    unfold compute_inflammation_score
    rw [if_pos (by omega)]
  · intro panel b h2
    unfold compute_inflammation_score
    rw [if_neg (by omega)]
    have hused : (infl_calculate_score (infl_calculate_z_scores
        (extract_inflammation_biomarkers panel) b)).2 = 2 := by
      have hzc := infl_used_eq_count (extract_inflammation_biomarkers panel) b
      unfold infl_calculate_score
      rw [if_neg (by omega)]
      simpa [hzc] using h2
    rw [if_neg (by omega)]
    exact ⟨_, rfl, hused⟩
  · intro panel hle
    unfold compute_oxygen_score
    rw [if_pos (by omega)]
  · intro panel h2
    unfold compute_oxygen_score
    rw [if_neg (by omega)]
    have hused : (oxy_calculate_score (oxy_calculate_z_scores
        (extract_oxygen_biomarkers panel))).2 = 2 := by
      have hzc := oxy_used_eq_count (extract_oxygen_biomarkers panel)
      unfold oxy_calculate_score
      rw [if_neg (by omega)]
      simpa [hzc] using h2
    rw [if_neg (by omega)]
    exact ⟨_, rfl, hused⟩

/-- Claim C1 counterexample: the panel with HbA1c as its only resolvable
metabolic marker makes exactly one marker contribute, yet
`compute_metabolic_score` returns a non-null result — the claimed 2-marker
floor does not exist in the metabolic facade. -/
theorem C1_counterexample_metabolic_one_marker :
    metab_markers_used (metab_z
      ⟨.vNone, .vNone, .vNone, .vNone, .vNone, .vNone, .vStr "5.0%"⟩) = 1 ∧
    compute_metabolic_score
      ⟨.vNone, .vNone, .vNone, .vNone, .vNone, .vNone, .vStr "5.0%"⟩ ≠ none := by
  refine ⟨metab_z_hba1c_only, ?_⟩
  rw [compute_metab_hba1c_only]
  simp

theorem C1_insufficient_data_floor_witness :
    (∃ r, compute_inflammation_score
        [(("hsCRP" : String), RawValue.vStr "1.2 mg/L"),
         (("ESR" : String), RawValue.vStr "15 mm/h")] true = some r ∧ r.markersUsed = 2) ∧
    compute_oxygen_score [] = none :=
  ⟨C1_insufficient_data_floor.2.2.2.1 _ true (by decide),
   C1_insufficient_data_floor.2.2.2.2.1 [] (by decide)⟩

theorem metab_parse_150 : metab_parse_biomarker (.vStr "150") = some 150 := by
  simp [metab_parse_biomarker, stripUnitSuffixes, metabSuffixes, trimChars, replaceAll,
        parsePyFloat, applyExponent, signSplit, decToRat, digitsToNat, digitVal]

theorem metab_parse_50 : metab_parse_biomarker (.vStr "50") = some 50 := by
  simp [metab_parse_biomarker, stripUnitSuffixes, metabSuffixes, trimChars, replaceAll,
        parsePyFloat, applyExponent, signSplit, decToRat, digitsToNat, digitVal]

theorem metab_parse_75 : metab_parse_biomarker (.vStr "75") = some 75 := by
  simp [metab_parse_biomarker, stripUnitSuffixes, metabSuffixes, trimChars, replaceAll,
        parsePyFloat, applyExponent, signSplit, decToRat, digitsToNat, digitVal]

theorem compute_metab_tg150_hdl50 :
    compute_metabolic_score ⟨.vNone, .vNone, .vStr "150", .vStr "50", .vNone, .vNone, .vNone⟩ =
      some ⟨85, 1, .optimal, ⟨none, some 3, none, none⟩⟩ := by
  have hv : metab_convert_units
      ⟨.vNone, .vNone, .vStr "150", .vStr "50", .vNone, .vNone, .vNone⟩ =
      ⟨none, none, some 150, some 50, none, none, none⟩ := by
    simp [metab_convert_units, metab_parse_150, metab_parse_50, metab_parse_vNone,
          convertGlucose, convertTg, convertLipid]
    norm_num
  rw [compute_metabolic_score, hv]
  have hd : metab_derived_full ⟨none, none, some 150, some 50, none, none, none⟩ =
      ⟨none, some 3, none, none⟩ := by
    simp [metab_derived_full, metab_calculate_derived_markers, otruthy]
    norm_num
  rw [metab_score_from_values, hd]
  have hz : metab_calculate_z_scores ⟨none, some 3, none, none⟩ =
      ⟨none, some 1, none, none⟩ := by
    simp [metab_calculate_z_scores, zPos]
    norm_num
  rw [hz]
  have hs : metab_calculate_score ⟨none, some 1, none, none⟩ = (some 85, 1) := by
    simp only [metab_calculate_score, metab_markers_used, optCount, metab_penalty,
          metab_total_weight, metab_penalty_raw, optTerm, optWeight, clamp100]
    norm_num
    norm_num [round1, roundTE, Int.fract, round_eq]
  rw [hs]
  norm_num [metab_get_interpretation]

theorem compute_metab_tg150_hdl75 :
    compute_metabolic_score ⟨.vNone, .vNone, .vStr "150", .vStr "75", .vNone, .vNone, .vNone⟩ =
      some ⟨100, 1, .optimal, ⟨none, some 2, none, none⟩⟩ := by
  have hv : metab_convert_units
      ⟨.vNone, .vNone, .vStr "150", .vStr "75", .vNone, .vNone, .vNone⟩ =
      ⟨none, none, some 150, some 75, none, none, none⟩ := by
    simp [metab_convert_units, metab_parse_150, metab_parse_75, metab_parse_vNone,
          convertGlucose, convertTg, convertLipid]
    norm_num
  rw [compute_metabolic_score, hv]
  have hd : metab_derived_full ⟨none, none, some 150, some 75, none, none, none⟩ =
      ⟨none, some 2, none, none⟩ := by
    simp [metab_derived_full, metab_calculate_derived_markers, otruthy]
    norm_num
  rw [metab_score_from_values, hd]
  have hz : metab_calculate_z_scores ⟨none, some 2, none, none⟩ =
      ⟨none, some 0, none, none⟩ := by
    simp [metab_calculate_z_scores, zPos]
    norm_num
  rw [hz]
  have hs : metab_calculate_score ⟨none, some 0, none, none⟩ = (some 100, 1) := by
    simp only [metab_calculate_score, metab_markers_used, optCount, metab_penalty,
          metab_total_weight, metab_penalty_raw, optTerm, optWeight, clamp100]
    norm_num
    norm_num [round1, roundTE, Int.fract, round_eq]
  rw [hs]
  norm_num [metab_get_interpretation]

theorem extract_oxy_hgb_hct10 :
    extract_oxygen_biomarkers
      [(("hemoglobin" : String), RawValue.vNum 13.5), (("hematocrit" : String), RawValue.vNum 1.0)] =
      ⟨some 13.5, some 100, none, none⟩ := by
  have h1 : oxy_convert_units_hematocrit 1.0 [] = 100 := by
    simp [oxy_convert_units_hematocrit]
    norm_num
  simp [extract_oxygen_biomarkers, resolveMarker, findEntryParsed, re_parse_biomarker,
        normKey, lowerStr, spaceToUnderscore, oxy_aliases_hemoglobin, oxy_aliases_hematocrit,
        oxy_aliases_rbc, oxy_aliases_iron, unitToken,
        oxy_convert_units_hemoglobin, containsSub, h1]

theorem extract_oxy_hgb_hct11 :
    extract_oxygen_biomarkers
      [(("hemoglobin" : String), RawValue.vNum 13.5), (("hematocrit" : String), RawValue.vNum 1.1)] =
      ⟨some 13.5, some 1.1, none, none⟩ := by
  have h1 : oxy_convert_units_hematocrit 1.1 [] = 1.1 := by
    simp [oxy_convert_units_hematocrit]
    norm_num
  simp [extract_oxygen_biomarkers, resolveMarker, findEntryParsed, re_parse_biomarker,
        normKey, lowerStr, spaceToUnderscore, oxy_aliases_hemoglobin, oxy_aliases_hematocrit,
        oxy_aliases_rbc, oxy_aliases_iron, unitToken,
        oxy_convert_units_hemoglobin, containsSub, h1]

theorem round1_clamp_eval {x : ℚ} {n : ℤ} (h1 : 0 ≤ x) (h2 : x ≤ 100) (h3 : 10 * x = (n : ℚ)) :
    round1 (clamp100 x) = n / 10 := by
  unfold clamp100
  rw [min_eq_right h2, max_eq_right h1, round1_of_eq_int h3]

theorem compute_oxy_hct10 :
    compute_oxygen_score
      [(("hemoglobin" : String), RawValue.vNum 13.5), (("hematocrit" : String), RawValue.vNum 1.0)] =
      some ⟨100, 2, .optimal, ⟨some 13.5, some 100, none, none⟩⟩ := by
  rw [compute_oxygen_score, extract_oxy_hgb_hct10]
  have hz : oxy_calculate_z_scores ⟨some 13.5, some 100, none, none⟩ =
      ⟨some 0, some 0, none, none⟩ := by
    simp [oxy_calculate_z_scores, zNeg]
    norm_num
  have hpen : oxy_penalty ⟨some 0, some 0, none, none⟩ = 0 := by
    simp [oxy_penalty, optTerm]
  have hs : oxy_calculate_score ⟨some 0, some 0, none, none⟩ = (100, 2) := by
    unfold oxy_calculate_score
    rw [if_neg (by simp [oxy_markers_used, optCount])]
    rw [hpen]
    rw [show (100 : ℚ) - 22 * 0 = 100 by norm_num]
    rw [round1_clamp_eval (by norm_num) (by norm_num)
        (show (10 : ℚ) * 100 = ((1000 : ℤ) : ℚ) by norm_num)]
    norm_num
    rfl
  rw [if_neg (by simp [omarkers_count, optCount]), hz]
  simp only [hs]
  norm_num [oxy_get_interpretation]

theorem compute_oxy_hct11 :
    compute_oxygen_score
      [(("hemoglobin" : String), RawValue.vNum 13.5), (("hematocrit" : String), RawValue.vNum 1.1)] =
      some ⟨37.3, 2, .needsImprovement, ⟨some 13.5, some 1.1, none, none⟩⟩ := by
  rw [compute_oxygen_score, extract_oxy_hgb_hct11]
  have hz : oxy_calculate_z_scores ⟨some 13.5, some (1.1 : ℚ), none, none⟩ =
      ⟨some 0, some 11.4, none, none⟩ := by
    simp [oxy_calculate_z_scores, zNeg]
    norm_num
  have hpen : oxy_penalty ⟨some 0, some (11.4 : ℚ), none, none⟩ = 2.85 := by
    simp [oxy_penalty, optTerm]
    norm_num
  have hs : oxy_calculate_score ⟨some 0, some (11.4 : ℚ), none, none⟩ = (37.3, 2) := by
    unfold oxy_calculate_score
    rw [if_neg (by simp [oxy_markers_used, optCount])]
    rw [hpen]
    rw [show (100 : ℚ) - 22 * 2.85 = 37.3 by norm_num]
    rw [round1_clamp_eval (by norm_num) (by norm_num)
        (show (10 : ℚ) * 37.3 = ((373 : ℤ) : ℚ) by norm_num)]
    norm_num
    rfl
  rw [if_neg (by simp [omarkers_count, optCount]), hz]
  simp only [hs]
  norm_num [oxy_get_interpretation]

/-- Claim C2 (amended): monotonicity holds at the canonical-marker level —
raising any single canonical marker value (same presence pattern) never
raises the metabolic or inflammation score and never lowers the oxygen
score.  At the raw-panel level the claim fails (see the counterexample):
raising `HDL_cholesterol` raises the metabolic score because HDL enters the
TG/HDL denominator, and raising a hematocrit reading from 1.0 to 1.1 crosses
the fraction heuristic and lowers the oxygen score. -/
theorem C2_monotonicity_canonical :
    (∀ d d' : MetabMarkers, mmLE d d' →
      optScoreLE (metab_calculate_score (metab_calculate_z_scores d')).1
        (metab_calculate_score (metab_calculate_z_scores d)).1) ∧
    (∀ (m m' : IMarkers) (b : Bool), imLE m m' →
      (infl_calculate_score (infl_calculate_z_scores m' b)).1 ≤
        (infl_calculate_score (infl_calculate_z_scores m b)).1) ∧
    (∀ m m' : OMarkers, omLE m m' →
      (oxy_calculate_score (oxy_calculate_z_scores m)).1 ≤
        (oxy_calculate_score (oxy_calculate_z_scores m')).1) :=
  ⟨fun _ _ h => metab_score_anti h, fun _ _ b h => infl_score_anti h b,
   fun _ _ h => oxy_score_mono h⟩

theorem C2_monotonicity_canonical_witness :
    optScoreLE
      (metab_calculate_score (metab_calculate_z_scores ⟨none, some 3, none, none⟩)).1
      (metab_calculate_score (metab_calculate_z_scores ⟨none, some 2, none, none⟩)).1 :=
  C2_monotonicity_canonical.1 ⟨none, some 2, none, none⟩ ⟨none, some 3, none, none⟩
    (by simp [mmLE, oLE]; norm_num)

/-- Claim C2 counterexample: at the raw-panel level the claimed directions
fail.  Raising HDL from "50" to "75" raises the metabolic score from 85 to
100, and raising hematocrit from 1.0 to 1.1 lowers the oxygen score from 100
to 37.3. -/
theorem C2_counterexample_raw_level :
    (compute_metabolic_score
        ⟨.vNone, .vNone, .vStr "150", .vStr "50", .vNone, .vNone, .vNone⟩ =
      some ⟨85, 1, .optimal, ⟨none, some 3, none, none⟩⟩ ∧
     compute_metabolic_score
        ⟨.vNone, .vNone, .vStr "150", .vStr "75", .vNone, .vNone, .vNone⟩ =
      some ⟨100, 1, .optimal, ⟨none, some 2, none, none⟩⟩ ∧
     (85 : ℚ) < 100) ∧
    (compute_oxygen_score
        [(("hemoglobin" : String), RawValue.vNum 13.5),
         (("hematocrit" : String), RawValue.vNum 1.0)] =
      some ⟨100, 2, .optimal, ⟨some 13.5, some 100, none, none⟩⟩ ∧
     compute_oxygen_score
        [(("hemoglobin" : String), RawValue.vNum 13.5),
         (("hematocrit" : String), RawValue.vNum 1.1)] =
      some ⟨37.3, 2, .needsImprovement, ⟨some 13.5, some 1.1, none, none⟩⟩ ∧
     (37.3 : ℚ) < 100) :=
  ⟨⟨compute_metab_tg150_hdl50, compute_metab_tg150_hdl75, by norm_num⟩,
   ⟨compute_oxy_hct10, compute_oxy_hct11, by norm_num⟩⟩

/-- Claim C3: with at least one contributing marker, the metabolic combiner
divides the weighted penalty by the total used weight exactly when that
weight is strictly between 0 and 1, while the inflammation and oxygen
combiners always score the raw weighted sum, with no renormalization. -/
theorem C3_weight_renormalization :
    (∀ z : MetabMarkers, 1 ≤ metab_markers_used z →
      0 < metab_total_weight z → metab_total_weight z < 1 →
      (metab_calculate_score z).1 =
        some (round1 (clamp100 (100 - 15 * (metab_penalty_raw z / metab_total_weight z))))) ∧
    (∀ z : MetabMarkers, 1 ≤ metab_markers_used z →
      ¬ (0 < metab_total_weight z ∧ metab_total_weight z < 1) →
      (metab_calculate_score z).1 =
        some (round1 (clamp100 (100 - 15 * metab_penalty_raw z)))) ∧
    (∀ z : IMarkers, 1 ≤ infl_markers_used z →
      (infl_calculate_score z).1 = round1 (clamp100 (100 - 18 * infl_penalty z))) ∧
    (∀ z : OMarkers, 1 ≤ oxy_markers_used z →
      (oxy_calculate_score z).1 = round1 (clamp100 (100 - 22 * oxy_penalty z))) := by
  refine ⟨?_, ?_, ?_, ?_⟩
  · intro z h1 hw0 hw1
    unfold metab_calculate_score metab_penalty
    rw [if_neg (by omega), if_pos ⟨hw0, hw1⟩]
  · intro z h1 hw
    unfold metab_calculate_score metab_penalty
    rw [if_neg (by omega), if_neg hw]
  · intro z h1
    unfold infl_calculate_score
    rw [if_neg (by omega)]
  · intro z h1
    unfold oxy_calculate_score
    rw [if_neg (by omega)]

theorem C3_weight_renormalization_witness :
    (metab_calculate_score ⟨none, some 1, none, none⟩).1 =
      some (round1 (clamp100 (100 - 15 * (metab_penalty_raw ⟨none, some 1, none, none⟩ /
        metab_total_weight ⟨none, some 1, none, none⟩)))) :=
  C3_weight_renormalization.1 ⟨none, some 1, none, none⟩
    (by simp [metab_markers_used, optCount])
    (by norm_num [metab_total_weight, optWeight])
    (by norm_num [metab_total_weight, optWeight])

/-- Claim C4: whenever a pipeline returns a non-null result, the score lies
in [0, 100] and equals `round1 (clamp (100 - severity_scale * penalty))`
with severity scale 15 / 18 / 22 for metabolic / inflammation / oxygen, for
arbitrary panels (including extreme magnitudes). -/
theorem C4_score_bounds_and_formula :
    (∀ (p : MetabolicPanel) (r : MetabResult), compute_metabolic_score p = some r →
      0 ≤ r.score ∧ r.score ≤ 100 ∧
      r.score = round1 (clamp100 (100 - 15 * metab_penalty (metab_z p)))) ∧
    (∀ (panel : List (String × RawValue)) (b : Bool) (r : InflResult),
      compute_inflammation_score panel b = some r →
      0 ≤ r.score ∧ r.score ≤ 100 ∧
      r.score = round1 (clamp100 (100 - 18 * infl_penalty
        (infl_calculate_z_scores (extract_inflammation_biomarkers panel) b)))) ∧
    (∀ (panel : List (String × RawValue)) (r : OxyResult),
      compute_oxygen_score panel = some r →
      0 ≤ r.score ∧ r.score ≤ 100 ∧
      r.score = round1 (clamp100 (100 - 22 * oxy_penalty
        (oxy_calculate_z_scores (extract_oxygen_biomarkers panel))))) := by
  refine ⟨?_, ?_, ?_⟩
  · intro p r h
    unfold compute_metabolic_score metab_score_from_values at h
    rcases hsc : metab_calculate_score (metab_calculate_z_scores
        (metab_derived_full (metab_convert_units p))) with ⟨os, used⟩
    rw [hsc] at h
    cases os with
    | none => simp at h
    | some s =>
      simp only [Option.some.injEq] at h
      unfold metab_calculate_score at hsc
      split_ifs at hsc with h0
      · simp at hsc
      · have hs : s = round1 (clamp100 (100 - 15 * metab_penalty
            (metab_calculate_z_scores (metab_derived_full (metab_convert_units p))))) := by
          have := congrArg Prod.fst hsc
          simp at this
          exact this.symm
        have hscore : r.score = s := by rw [← h]
        have hb := round1_clamp_bounds (100 - 15 * metab_penalty
          (metab_calculate_z_scores (metab_derived_full (metab_convert_units p))))
        refine ⟨?_, ?_, ?_⟩
        · rw [hscore, hs]; exact hb.1
        · rw [hscore, hs]; exact hb.2
        · rw [hscore, hs]; rfl
  · intro panel b r h
    unfold compute_inflammation_score at h
    split_ifs at h with h1 h2
    · simp only [Option.some.injEq] at h
      have hscore : r.score = (infl_calculate_score (infl_calculate_z_scores
          (extract_inflammation_biomarkers panel) b)).1 := by rw [← h]
      have hform : (infl_calculate_score (infl_calculate_z_scores
          (extract_inflammation_biomarkers panel) b)).1 =
          round1 (clamp100 (100 - 18 * infl_penalty (infl_calculate_z_scores
            (extract_inflammation_biomarkers panel) b))) := by
        have hcnt := infl_used_eq_count (extract_inflammation_biomarkers panel) b
        unfold infl_calculate_score
        rw [if_neg (by omega)]
      have hb := round1_clamp_bounds (100 - 18 * infl_penalty (infl_calculate_z_scores
        (extract_inflammation_biomarkers panel) b))
      refine ⟨?_, ?_, ?_⟩
      · rw [hscore, hform]; exact hb.1
      · rw [hscore, hform]; exact hb.2
      · rw [hscore, hform]
  · intro panel r h
    unfold compute_oxygen_score at h
    split_ifs at h with h1 h2
    · simp only [Option.some.injEq] at h
      have hscore : r.score = (oxy_calculate_score (oxy_calculate_z_scores
          (extract_oxygen_biomarkers panel))).1 := by rw [← h]
      have hform : (oxy_calculate_score (oxy_calculate_z_scores
          (extract_oxygen_biomarkers panel))).1 =
          round1 (clamp100 (100 - 22 * oxy_penalty (oxy_calculate_z_scores
            (extract_oxygen_biomarkers panel)))) := by
        have hcnt := oxy_used_eq_count (extract_oxygen_biomarkers panel)
        unfold oxy_calculate_score
        rw [if_neg (by omega)]
      have hb := round1_clamp_bounds (100 - 22 * oxy_penalty (oxy_calculate_z_scores
        (extract_oxygen_biomarkers panel)))
      refine ⟨?_, ?_, ?_⟩
      · rw [hscore, hform]; exact hb.1
      · rw [hscore, hform]; exact hb.2
      · rw [hscore, hform]

theorem C4_score_bounds_and_formula_witness :
    0 ≤ (100 : ℚ) ∧ (100 : ℚ) ≤ 100 ∧
    (100 : ℚ) = round1 (clamp100 (100 - 15 * metab_penalty (metab_z
      ⟨.vNone, .vNone, .vNone, .vNone, .vNone, .vNone, .vStr "5.0%"⟩))) :=
  C4_score_bounds_and_formula.1
    ⟨.vNone, .vNone, .vNone, .vNone, .vNone, .vNone, .vStr "5.0%"⟩
    ⟨100, 1, .optimal, ⟨none, none, none, some 5⟩⟩ compute_metab_hba1c_only

/-- Claim C5: the z-score engines — `max(0, (v - mean)/sd)` for the metabolic
and inflammation pipelines, `abs(min(0, (v - mean)/sd))` for the oxygen
pipeline — always return non-negative values, and an absent (null) input
marker propagates to a null z-score, never to zero. -/
theorem C5_z_score_engines :
    (∀ mean sd v : ℚ, zPos mean sd v = max 0 ((v - mean) / sd) ∧ 0 ≤ zPos mean sd v) ∧
    (∀ mean sd v : ℚ, zNeg mean sd v = |min 0 ((v - mean) / sd)| ∧ 0 ≤ zNeg mean sd v) ∧
    (∀ d : MetabMarkers, metab_calculate_z_scores d =
      ⟨d.homa.map (zPos 1.46 0.8), d.tg_hdl.map (zPos 2.0 1.0),
       d.apob_a1.map (zPos 0.9 0.3), d.hba1c.map (zPos 5.3 0.4)⟩) ∧
    (∀ m : IMarkers,
      infl_calculate_z_scores m true =
        ⟨m.hscrp.map (zPos 0.8 0.8), m.esr.map (zPos 12 8),
         m.ferritin.map (zPos 35 20), m.wbc.map (zPos 6.5 2.0)⟩ ∧
      infl_calculate_z_scores m false =
        ⟨m.hscrp.map (zPos 1.5 1.0), m.esr.map (zPos 20 10),
         m.ferritin.map (zPos 100 50), m.wbc.map (zPos 6.5 2.0)⟩) ∧
    (∀ m : OMarkers, oxy_calculate_z_scores m =
      ⟨m.hemoglobin.map (zNeg 13.5 1.2), m.hematocrit.map (zNeg 41 3.5),
       m.rbc.map (zNeg 4.5 0.35), m.iron.map (zNeg 90 25)⟩) ∧
    (∀ d : MetabMarkers,
      ((metab_calculate_z_scores d).homa = none ↔ d.homa = none) ∧
      ((metab_calculate_z_scores d).tg_hdl = none ↔ d.tg_hdl = none) ∧
      ((metab_calculate_z_scores d).apob_a1 = none ↔ d.apob_a1 = none) ∧
      ((metab_calculate_z_scores d).hba1c = none ↔ d.hba1c = none)) ∧
    (∀ (m : IMarkers) (b : Bool),
      ((infl_calculate_z_scores m b).hscrp = none ↔ m.hscrp = none) ∧
      ((infl_calculate_z_scores m b).esr = none ↔ m.esr = none) ∧
      ((infl_calculate_z_scores m b).ferritin = none ↔ m.ferritin = none) ∧
      ((infl_calculate_z_scores m b).wbc = none ↔ m.wbc = none)) ∧
    (∀ m : OMarkers,
      ((oxy_calculate_z_scores m).hemoglobin = none ↔ m.hemoglobin = none) ∧
      ((oxy_calculate_z_scores m).hematocrit = none ↔ m.hematocrit = none) ∧
      ((oxy_calculate_z_scores m).rbc = none ↔ m.rbc = none) ∧
      ((oxy_calculate_z_scores m).iron = none ↔ m.iron = none)) := by
  refine ⟨fun mean sd v => ⟨rfl, zPos_nonneg mean sd v⟩,
          fun mean sd v => ⟨rfl, zNeg_nonneg mean sd v⟩,
          fun d => rfl, fun m => ⟨rfl, rfl⟩, fun m => rfl, ?_, ?_, ?_⟩
  · intro d
    refine ⟨?_, ?_, ?_, ?_⟩ <;> simp [metab_calculate_z_scores]
  · intro m b
    cases b <;> refine ⟨?_, ?_, ?_, ?_⟩ <;> simp [infl_calculate_z_scores]
  · intro m
    refine ⟨?_, ?_, ?_, ?_⟩ <;> simp [oxy_calculate_z_scores]

theorem takeWhile_isDigit_eq_nil {t : List Char} (h : ∀ c ∈ t, c.isDigit = false) :
    t.takeWhile Char.isDigit = [] := by
  cases t with
  | nil => rfl
  | cons c cs => simp [List.takeWhile_cons, h c (List.mem_cons_self c cs)]

theorem dropWhile_isDigit_eq_self {t : List Char} (h : ∀ c ∈ t, c.isDigit = false) :
    t.dropWhile Char.isDigit = t := by
  cases t with
  | nil => rfl
  | cons c cs => simp [List.dropWhile_cons, h c (List.mem_cons_self c cs)]

theorem signSplit_mem {s : List Char} {c : Char} (hc : c ∈ (signSplit s).2) : c ∈ s := by
  cases s with
  | nil => simpa [signSplit] using hc
  | cons a t =>
    rw [show signSplit (a :: t) =
      if a = '-' then (true, t) else if a = '+' then (false, t) else (false, a :: t)
      from rfl] at hc
    split_ifs at hc
    · exact List.mem_cons_of_mem _ hc
    · exact List.mem_cons_of_mem _ hc
    · exact hc

theorem matchNumberAt_none {s : List Char} (h : ∀ c ∈ s, c.isDigit = false) :
    matchNumberAt s = none := by
  have hsub : ∀ c ∈ (signSplit s).2, c.isDigit = false := fun c hc => h c (signSplit_mem hc)
  unfold matchNumberAt
  rw [dropWhile_isDigit_eq_self hsub, takeWhile_isDigit_eq_nil hsub]
  cases hr : (signSplit s).2 with
  | nil => simp
  | cons c t =>
    by_cases hdot : c = '.'
    · subst hdot
      have hft : ∀ x ∈ t, x.isDigit = false := fun x hx =>
        hsub x (by rw [hr]; exact List.mem_cons_of_mem _ hx)
      simp [takeWhile_isDigit_eq_nil hft]
    · cases hc : c <;> simp_all

theorem findNumber_none {s : List Char} (h : ∀ c ∈ s, c.isDigit = false) :
    findNumber s = none := by
  induction s with
  | nil => rfl
  | cons c cs ih =>
    unfold findNumber
    rw [matchNumberAt_none h]
    exact ih fun x hx => h x (List.mem_cons_of_mem _ hx)

/-- Claim C6 (amended): the extractors match raw keys by lower-casing and
replacing spaces — but not hyphens — with underscores; the first alias that
resolves wins, scanning aliases in fixed list order and panel entries in
insertion order, so each canonical key is resolved at most once,
deterministically. -/
theorem C6_alias_matching :
    (∀ s : String, normKey s = spaceToUnderscore (lowerStr s.data)) ∧
    normKey ("hs CRP") = ("hs_crp").data ∧
    normKey ("hs-CRP") = ("hs-crp").data ∧
    (∀ (pUnit : Char → Bool) (conv : ℚ → List Char → ℚ) (aliases : List (List Char))
       (panel : List (String × RawValue)),
      resolveMarker pUnit conv aliases panel = specResolve pUnit conv aliases panel) ∧
    (∀ panel : List (String × RawValue), extract_inflammation_biomarkers panel =
      ⟨resolveMarker isUnitCharI infl_convert_units_hscrp infl_aliases_hscrp panel,
       resolveMarker isUnitCharI (fun v _ => v) infl_aliases_esr panel,
       resolveMarker isUnitCharI (fun v _ => v) infl_aliases_ferritin panel,
       resolveMarker isUnitCharI (fun v _ => v) infl_aliases_wbc panel⟩) ∧
    (∀ panel : List (String × RawValue), extract_oxygen_biomarkers panel =
      ⟨resolveMarker isUnitCharO oxy_convert_units_hemoglobin oxy_aliases_hemoglobin panel,
       resolveMarker isUnitCharO oxy_convert_units_hematocrit oxy_aliases_hematocrit panel,
       resolveMarker isUnitCharO oxy_convert_units_rbc oxy_aliases_rbc panel,
       resolveMarker isUnitCharO oxy_convert_units_iron oxy_aliases_iron panel⟩) :=
  ⟨fun _ => rfl, by decide, by decide, resolveMarker_eq_specResolve,
   fun _ => rfl, fun _ => rfl⟩

/-- Claim C6 counterexample: hyphens are not folded to underscores.  The raw
key "hs-CRP" normalises (per the specification's wording) to "hs_crp", which
is a listed hsCRP alias, yet the extractor resolves nothing from the panel
`{"hs-CRP": 2}` because the code only replaces spaces. -/
theorem C6_counterexample_hyphen_key :
    (extract_inflammation_biomarkers [(("hs-CRP" : String), RawValue.vNum 2)]).hscrp = none ∧
    claimNormKey ("hs-CRP") = ("hs_crp").data ∧
    ("hs_crp").data ∈ infl_aliases_hscrp :=
  ⟨by decide, by decide, by decide⟩

/-- Claim C7 (amended): the inflammation and oxygen parsers pass numbers
through unchanged and take the first signed-decimal substring of a string;
null, the empty string, and digit-free strings are unparseable.  The
metabolic parser instead strips a fixed list of unit suffixes and parses the
whole remainder with `float` (so a string with other surrounding text is
unparseable there, see the counterexample). -/
theorem C7_value_parsing :
    (∀ q : ℚ, re_parse_biomarker (.vNum q) = some q) ∧
    re_parse_biomarker .vNone = none ∧
    (∀ s : String, re_parse_biomarker (.vStr s) = findNumber s.data) ∧
    findNumber [] = none ∧
    (∀ s : List Char, (∀ c ∈ s, c.isDigit = false) → findNumber s = none) ∧
    metab_parse_biomarker .vNone = none ∧
    metab_parse_biomarker (.vStr "") = none ∧
    (∀ s : String, s.data ≠ [] → metab_parse_biomarker (.vStr s) =
      parsePyFloat (stripUnitSuffixes (trimChars s.data))) := by
  refine ⟨fun _ => rfl, rfl, fun _ => rfl, rfl, fun s h => findNumber_none h, rfl, by decide, ?_⟩
  intro s hs
  show (if s.data = [] then none else parsePyFloat (stripUnitSuffixes (trimChars s.data))) =
    parsePyFloat (stripUnitSuffixes (trimChars s.data))
  rw [if_neg hs]

theorem C7_value_parsing_witness :
    findNumber (("mg/dL").data) = none ∧
    metab_parse_biomarker (.vStr "abc") = parsePyFloat (stripUnitSuffixes (trimChars (("abc").data))) :=
  ⟨C7_value_parsing.2.2.2.2.1 (("mg/dL").data) (by decide),
   C7_value_parsing.2.2.2.2.2.2.2 ("abc") (by decide)⟩

/-- Claim C7 counterexample: the metabolic parser is not first-substring
based.  On "102 mm/h" the regex-based parser of the other two pipelines
finds 102, but `MetabolicScore.parse_biomarker` reports unparseable because
after suffix stripping the whole string must be a float literal. -/
theorem C7_counterexample_metabolic_parse :
    metab_parse_biomarker (.vStr "102 mm/h") = none ∧
    findNumber (("102 mm/h").data) = some 102 := by
  constructor
  · simp [metab_parse_biomarker, stripUnitSuffixes, metabSuffixes, trimChars, replaceAll,
          parsePyFloat, applyExponent, signSplit, decToRat, digitsToNat, digitVal]
  · simp [findNumber, matchNumberAt, signSplit, decToRat, digitsToNat, digitVal]

theorem metab_parse_150mgdl : metab_parse_biomarker (.vStr "150 mg/dL") = some 150 := by
  simp [metab_parse_biomarker, stripUnitSuffixes, metabSuffixes, trimChars, replaceAll,
        parsePyFloat, applyExponent, signSplit, decToRat, digitsToNat, digitVal]

theorem metab_parse_15gL : metab_parse_biomarker (.vStr "1.5 g/L") = some 1.5 := by
  simp [metab_parse_biomarker, stripUnitSuffixes, metabSuffixes, trimChars, replaceAll,
        parsePyFloat, applyExponent, signSplit, decToRat, digitsToNat, digitVal]
  norm_num

/-- Claim C8: "150 mg/dL" and "1.5 g/L" both normalise to a canonical
triglycerides value of 150 mg/dL, so panels differing only in that spelling
produce identical metabolic results whatever the other six inputs are. -/
theorem C8_unit_equivalence :
    (∀ g i h b a1 hb : RawValue,
      compute_metabolic_score ⟨g, i, .vStr "150 mg/dL", h, b, a1, hb⟩ =
        compute_metabolic_score ⟨g, i, .vStr "1.5 g/L", h, b, a1, hb⟩) ∧
    (∀ g i h b a1 hb : RawValue,
      (metab_convert_units ⟨g, i, .vStr "150 mg/dL", h, b, a1, hb⟩).tg_mgdl = some 150 ∧
      (metab_convert_units ⟨g, i, .vStr "1.5 g/L", h, b, a1, hb⟩).tg_mgdl = some 150) := by
  have hcv : convertTg (some (150 : ℚ)) = some 150 := by
    simp [convertTg]
    norm_num
  have hcv' : convertTg (some (1.5 : ℚ)) = some 150 := by
    simp [convertTg]
    norm_num
  have hconv : ∀ g i h b a1 hb : RawValue,
      metab_convert_units ⟨g, i, .vStr "150 mg/dL", h, b, a1, hb⟩ =
      metab_convert_units ⟨g, i, .vStr "1.5 g/L", h, b, a1, hb⟩ := by
    intro g i h b a1 hb
    unfold metab_convert_units
    simp only [metab_parse_150mgdl, metab_parse_15gL, hcv, hcv']
  refine ⟨?_, ?_⟩
  · intro g i h b a1 hb
    unfold compute_metabolic_score
    rw [hconv]
  · intro g i h b a1 hb
    constructor
    · show convertTg (metab_parse_biomarker (.vStr "150 mg/dL")) = some 150
      rw [metab_parse_150mgdl, hcv]
    · show convertTg (metab_parse_biomarker (.vStr "1.5 g/L")) = some 150
      rw [metab_parse_15gL, hcv']

/-- Claim C9: for every panel (arbitrary string, numeric, or null values)
each entry point terminates with a result or null and raises no exception:
the exception-aware re-execution of each pipeline, in which every source
division is checked, always returns `ok` of the pure pipeline's answer. -/
theorem C9_no_exceptions :
    (∀ p : MetabolicPanel, compute_metabolic_scoreE p = .ok (compute_metabolic_score p)) ∧
    (∀ (panel : List (String × RawValue)) (b : Bool),
      compute_inflammation_scoreE panel b = .ok (compute_inflammation_score panel b)) ∧
    (∀ panel : List (String × RawValue),
      compute_oxygen_scoreE panel = .ok (compute_oxygen_score panel)) ∧
    (∀ p : MetabolicPanel,
      compute_metabolic_score p = none ∨ ∃ r, compute_metabolic_score p = some r) ∧
    (∀ (panel : List (String × RawValue)) (b : Bool),
      compute_inflammation_score panel b = none ∨
        ∃ r, compute_inflammation_score panel b = some r) ∧
    (∀ panel : List (String × RawValue),
      compute_oxygen_score panel = none ∨ ∃ r, compute_oxygen_score panel = some r) := by
  refine ⟨compute_metabolic_scoreE_ok, compute_inflammation_scoreE_ok,
    compute_oxygen_scoreE_ok, ?_, ?_, ?_⟩
  · intro p
    cases h : compute_metabolic_score p with
    | none => exact Or.inl rfl
    | some r => exact Or.inr ⟨r, rfl⟩
  · intro panel b
    cases h : compute_inflammation_score panel b with
    | none => exact Or.inl rfl
    | some r => exact Or.inr ⟨r, rfl⟩
  · intro panel
    cases h : compute_oxygen_score panel with
    | none => exact Or.inl rfl
    | some r => exact Or.inr ⟨r, rfl⟩

/-- Claim C10: a canonical metabolic value of exactly 0 is treated as absent
by the derived-marker step (Python float truthiness), so HOMA-IR, TG/HDL and
ApoB/ApoA1 are only ever computed from present, non-zero operands — division
by zero is unreachable and the affected derived marker is null instead; the
unit-conversion step likewise maps a parsed 0 to an absent canonical value. -/
theorem C10_zero_operand_guard :
    (∀ (v : MetabValues) (q : ℚ), (metab_calculate_derived_markers v).homa = some q →
      ∃ g i, v.glucose_mmol = some g ∧ v.insulin_u = some i ∧ g ≠ 0 ∧ i ≠ 0 ∧
        q = (g * i) / 22.5) ∧
    (∀ (v : MetabValues) (q : ℚ), (metab_calculate_derived_markers v).tg_hdl = some q →
      ∃ t h, v.tg_mgdl = some t ∧ v.hdl_mgdl = some h ∧ t ≠ 0 ∧ h ≠ 0 ∧ q = t / h) ∧
    (∀ (v : MetabValues) (q : ℚ), (metab_calculate_derived_markers v).apob_a1 = some q →
      ∃ b a, v.apob_mgdl = some b ∧ v.apoa1_mgdl = some a ∧ b ≠ 0 ∧ a ≠ 0 ∧ q = b / a) ∧
    (∀ v : MetabValues, v.hdl_mgdl = some 0 →
      (metab_calculate_derived_markers v).tg_hdl = none) ∧
    (∀ v : MetabValues, v.insulin_u = some 0 →
      (metab_calculate_derived_markers v).homa = none) ∧
    (∀ v : MetabValues, v.apoa1_mgdl = some 0 →
      (metab_calculate_derived_markers v).apob_a1 = none) ∧
    convertGlucose (some 0) = none ∧ convertTg (some 0) = none ∧
    convertLipid (some 0) = none := by
  refine ⟨?_, ?_, ?_, ?_, ?_, ?_, by simp [convertGlucose], by simp [convertTg],
    by simp [convertLipid]⟩
  · intro v q h
    rcases hg : v.glucose_mmol with _ | g <;> rcases hi : v.insulin_u with _ | i <;>
      simp [metab_calculate_derived_markers, hg, hi] at h
    exact ⟨g, i, rfl, rfl, h.1.1, h.1.2, h.2.symm⟩
  · intro v q h
    rcases ht : v.tg_mgdl with _ | t <;> rcases hh : v.hdl_mgdl with _ | hd <;>
      simp [metab_calculate_derived_markers, ht, hh] at h
    exact ⟨t, hd, rfl, rfl, h.1.1, h.1.2, h.2.symm⟩
  · intro v q h
    rcases hb : v.apob_mgdl with _ | b <;> rcases ha : v.apoa1_mgdl with _ | a <;>
      simp [metab_calculate_derived_markers, hb, ha] at h
    exact ⟨b, a, rfl, rfl, h.1.1, h.1.2, h.2.symm⟩
  · intro v h
    rcases ht : v.tg_mgdl with _ | t <;> simp [metab_calculate_derived_markers, ht, h]
  · intro v h
    rcases hg : v.glucose_mmol with _ | g <;> simp [metab_calculate_derived_markers, hg, h]
  · intro v h
    rcases hb : v.apob_mgdl with _ | b <;> simp [metab_calculate_derived_markers, hb, h]

theorem C10_zero_operand_guard_witness :
    ∃ t h, (⟨none, none, some 150, some 50, none, none, none⟩ : MetabValues).tg_mgdl = some t ∧
      (⟨none, none, some 150, some 50, none, none, none⟩ : MetabValues).hdl_mgdl = some h ∧
      t ≠ 0 ∧ h ≠ 0 ∧ (3 : ℚ) = t / h :=
  C10_zero_operand_guard.2.1 ⟨none, none, some 150, some 50, none, none, none⟩ 3
    (by simp [metab_calculate_derived_markers]; norm_num)
